import Mathlib

/-!
Verification of the dict-sql core of `src/src/lib-dict-backend/dict-sql.c`:
the path→SQL map matcher, WHERE builder, value codec, lookup result
handling, transaction staging buffers and the expiry reaper.  Each C
function is shallowly embedded as an executable Lean definition with the
same name; stateful code is modelled by explicit state passing on a
transaction-context structure.
-/

namespace DictSql

/-- `enum dict_sql_type` (dict-sql-settings.h): the typed SQL parameter kinds. -/
inductive DictSqlType
  | string
  | int
  | uint
  | double
  | uuid
  | hexblob
deriving DecidableEq

/-- `struct dict_sql_field`: one pattern field (`$` position) of a map. -/
structure DictSqlField where
  name : String
  value_type : DictSqlType
deriving DecidableEq

/-- `struct dict_sql_map` (dict-sql-settings.h): one configured pattern→table rule. -/
structure DictSqlMap where
  pattern : String
  table : String
  username_field : String
  value_field : String
  value_types : List DictSqlType
  values_count : Nat
  expire_field : Option String
  pattern_fields : List DictSqlField
deriving DecidableEq

/-- `enum sql_recurse_type` in dict-sql.c. -/
inductive RecurseType
  | rNone
  | rOne
  | rFull
deriving DecidableEq

/-- Modelled from the spec: the private-path sentinel (`DICT_PATH_PRIVATE` of
dict.h, which is not under src/); only its first byte is used by dict-sql.c. -/
def DICT_PATH_PRIVATE : String := "priv/"

/-- Modelled from the spec: the shared-path sentinel (`DICT_PATH_SHARED` of
dict.h, which is not under src/). -/
def DICT_PATH_SHARED : String := "shared/"

/-- First byte of a C string (`key[0]`); NUL for the empty string. -/
def keyChar0 (s : String) : Char := s.toList.headD (Char.ofNat 0)

/- ------------------------------------------------------------------ -/
/- C1 component: the map matcher `dict_sql_map_match`.                  -/
/- ------------------------------------------------------------------ -/

/-- The `while (*pat != '\0' && *path != '\0')` loop of `dict_sql_map_match`,
together with the post-loop epilogue (lines 146-224 of dict-sql.c).
`patFull` is the whole pattern (needed for the `pat[-1]` lookback),
`pat`/`path` the unread suffixes, `vals` the values pushed so far, and
`patN`/`pathN` the numbers of consumed pattern/path characters.
Returns `some (pattern_values, pat_len, path_len)` on a match. -/
def mLoop (patFull : List Char) (partOk recurse : Bool) :
    Nat → List Char → List Char → List String → Nat → Nat →
    Option (List String × Nat × Nat)
  | 0, _, _, _, _, _ => none
  | _ + 1, [], [], vals, patN, pathN => some (vals, patN, pathN)
  | _ + 1, [], _ :: _, _, _, _ => none
  | _ + 1, p :: pr, [], vals, patN, pathN =>
    -- loop exited with pattern left over: partial matches must end with '/'
    if ¬ partOk then none
    else if patN ≠ 0 ∧ patFull.getD (patN - 1) (Char.ofNat 0) ≠ '/' then none
    else if recurse then some (vals, patN, pathN)
    else if p = '$' ∧ ¬ (p :: pr).contains '/' then some (vals, patN, pathN)
    else none
  | fuel + 1, p :: pr, c :: cr, vals, patN, pathN =>
    if p = '$' then
      match pr with
      | [] =>
        -- pattern ended with this variable: it matches the rest of the path
        if partOk then
          -- iterating: the last field never matches fully; drop a trailing '/'
          if (c :: cr).getLast? = some '/' then
            some (vals ++ [String.mk (c :: cr).dropLast], patN, pathN)
          else
            some (vals ++ [String.mk (c :: cr)], patN, pathN)
        else
          some (vals ++ [String.mk (c :: cr)], patN + 1, pathN + (c :: cr).length)
      | q :: qr =>
        match (c :: cr).findIdx? (· = '/') with
        | some idx =>
          -- pattern matches until the next '/' in path
          mLoop patFull partOk recurse fuel (q :: qr) ((c :: cr).drop idx)
            (vals ++ [String.mk ((c :: cr).take idx)]) (patN + 1) (pathN + idx)
        | none =>
          -- no '/' anymore, but it'll still match a partial (pat is advanced
          -- one extra char, past the character following the '$')
          mLoop patFull partOk recurse fuel qr []
            (vals ++ [String.mk (c :: cr)]) (patN + 2) (pathN + (c :: cr).length)
    else if p = c then
      mLoop patFull partOk recurse fuel pr cr vals (patN + 1) (pathN + 1)
    else none

/-- `dict_sql_map_match(map, path, …)`: try to match `path` against
`map->pattern`, extracting the `$` bindings.  Every recursive `mLoop` step
consumes at least one pattern character, so the fuel `pattern length + 1` is
never exhausted and the loop runs exactly as the C `while` does. -/
def dict_sql_map_match (map : DictSqlMap) (path : String)
    (partOk recurse : Bool) : Option (List String × Nat × Nat) :=
  mLoop map.pattern.toList partOk recurse (map.pattern.toList.length + 1)
    map.pattern.toList path.toList [] 0 0

/-- `sql_dict_find_map`: first-fit scan of the configured maps with an exact
(`partial_ok=FALSE, recurse=FALSE`) match. -/
def findMapIn (maps : List DictSqlMap) (path : String) :
    Option (DictSqlMap × List String) :=
  maps.findSome? (fun m =>
    (dict_sql_map_match m path false false).map (fun r => (m, r.1)))

/-- Literal reconstruction: replace each `$` of the pattern, in order, by the
extracted pattern values (spec §8 invariant 1).  A `$` with no value left is
kept verbatim (the situation never arises for a well-formed exact match). -/
def patternSubst : List Char → List String → List Char
  | [], _ => []
  | c :: ps, vs =>
    if c = '$' then
      match vs with
      | v :: vtl => v.toList ++ patternSubst ps vtl
      | [] => '$' :: patternSubst ps []
    else c :: patternSubst ps vs

/-- Well-formed patterns: every `$` is either the last pattern character or is
followed by `/` and at least one further character (`shared/x/$/$`-style
patterns as used throughout dovecot configurations). -/
def wfPattern : List Char → Bool
  | [] => true
  | c :: rest =>
    if c = '$' then
      match rest with
      | [] => true
      | r :: rs => decide (r = '/') && !rs.isEmpty && wfPattern rest
    else wfPattern rest

/- ------------------------------------------------------------------ -/
/- C2 component: the value codec.                                       -/
/- ------------------------------------------------------------------ -/

/-- Modelled from the spec: dovecot's `str_to_int64` (lib/strnum.c, not under
src/) — "must parse as signed 64-bit": an optional `-` followed by one or more
decimal digits, within the signed 64-bit range, no other characters. -/
def strToInt64 (s : String) : Option Int :=
  match s.toList with
  | '-' :: ds =>
    if ds ≠ [] ∧ ds.all Char.isDigit then
      if (ds.foldl (fun a c => a * 10 + (c.toNat - 48)) 0) ≤ 2 ^ 63 then
        some (-(ds.foldl (fun a c => a * 10 + (c.toNat - 48)) 0 : Int))
      else none
    else none
  | ds =>
    if ds ≠ [] ∧ ds.all Char.isDigit then
      if (ds.foldl (fun a c => a * 10 + (c.toNat - 48)) 0) ≤ 2 ^ 63 - 1 then
        some ((ds.foldl (fun a c => a * 10 + (c.toNat - 48)) 0 : Int))
      else none
    else none

/-- Modelled from the spec: dovecot's `str_to_time` used by the expiry filter
(lib/strnum.c, not under src/) — parse a decimal epoch timestamp. -/
def strToTime (s : String) : Option Int := strToInt64 s

/-- Value of a hex digit, if any. -/
def hexDigit (c : Char) : Option Nat :=
  if '0' ≤ c ∧ c ≤ '9' then some (c.toNat - 48)
  else if 'a' ≤ c ∧ c ≤ 'f' then some (c.toNat - 87)
  else if 'A' ≤ c ∧ c ≤ 'F' then some (c.toNat - 55)
  else none

/-- Modelled from the spec: dovecot's `hex_to_binary` (lib/hex-binary.c, not
under src/) — "must be hex": pairs of hex digits decoded to bytes. -/
def hexToBinary : List Char → Option (List Nat)
  | [] => some []
  | [_] => none
  | a :: b :: rest =>
    match hexDigit a, hexDigit b, hexToBinary rest with
    | some ha, some hb, some bs => some ((ha * 16 + hb) :: bs)
    | _, _, _ => none

/-- Lowercase hex rendering of one byte. -/
def byteToHex (b : Nat) : List Char :=
  [ (Nat.digitChar ((b / 16) % 16)), (Nat.digitChar (b % 16)) ]

/-- Modelled from the spec: dovecot's `binary_to_hex_append` (lib/hex-binary.c,
not under src/). -/
def binaryToHex (bs : List Nat) : String :=
  String.mk (bs.flatMap byteToHex)

/-- Modelled from the spec: dovecot's `guid_128_from_uuid_string`
(lib/guid.c, not under src/) — "must parse as UUID": 32 hex digits, with the
record-format dashes optionally present. -/
def guid128FromUuidString (s : String) : Option (List Nat) :=
  match hexToBinary (s.toList.filter (· ≠ '-')) with
  | some bs => if bs.length = 16 then some bs else none
  | none => none

/-- Modelled from the spec: dovecot's `guid_128_to_uuid_string(…, FORMAT_RECORD)`
(lib/guid.c, not under src/): 8-4-4-4-12 lowercase hex. -/
def guid128ToUuidRecord (bs : List Nat) : String :=
  String.mk ((bs.take 4).flatMap byteToHex) ++ "-" ++
  String.mk (((bs.drop 4).take 2).flatMap byteToHex) ++ "-" ++
  String.mk (((bs.drop 6).take 2).flatMap byteToHex) ++ "-" ++
  String.mk (((bs.drop 8).take 2).flatMap byteToHex) ++ "-" ++
  String.mk ((bs.drop 10).flatMap byteToHex)

/-- Modelled from the spec: success of dovecot's `str_to_double`
(lib/strnum.c, not under src/) — "must parse as IEEE-754 double".  The engine
never computes with the parsed number, so only acceptance matters; we accept
the plain decimal forms `[-]digits[.digits]`. -/
def strToDoubleOk (s : String) : Bool :=
  match s.toList with
  | '-' :: ds => strToDoubleDigits ds
  | ds => strToDoubleDigits ds
where
  strToDoubleDigits (ds : List Char) : Bool :=
    match ds.splitOn '.' with
    | [a] => a ≠ [] && a.all Char.isDigit
    | [a, b] => a ≠ [] && a.all Char.isDigit && b ≠ [] && b.all Char.isDigit
    | _ => false

/-- `struct sql_dict_param`: one typed SQL statement parameter.  The C struct
stores all payload members; unused ones stay zeroed.  The double payload keeps
the source text (the engine never computes with doubles). -/
structure SqlDictParam where
  value_type : DictSqlType
  value_str : String := ""
  value_int64 : Int := 0
  value_double : String := ""
  value_binary : List Nat := []
  value_uuid : List Nat := []
deriving DecidableEq

/-- Errors produced by the query builders.  The C code formats message strings
with `t_strdup_printf`; we keep the distinct formats as constructors, with
`DictError.message` recovering the exact text. -/
inductive DictError
  | keyPastPattern (pattern : String)
  | invalidValue (msg : String)
  | assertFailed (msg : String)
deriving DecidableEq

/-- The message text the C code would produce for an error. -/
def DictError.message : DictError → String
  | .keyPastPattern pattern => "Key continues past the matched pattern " ++ pattern
  | .invalidValue msg => msg
  | .assertFailed msg => "assertion failed: " ++ msg

/-- `sql_dict_value_get` (dict-sql.c lines 296-368): encode one textual value
with an optional LIKE suffix into a typed parameter appended to `params`. -/
def sql_dict_value_get (map : DictSqlMap) (value_type : DictSqlType)
    (field_name value value_suffix : String) (params : List SqlDictParam) :
    Except DictError (List SqlDictParam) :=
  match value_type with
  | .string =>
    .ok (params ++ [{ value_type := .string,
                      value_str := if value_suffix ≠ "" then value ++ value_suffix else value }])
  | .int =>
    if value_suffix ≠ "" ∨ strToInt64 value = none then
      .error (.invalidValue (field_name ++ " field's value isn't 64bit signed integer: " ++
        value ++ value_suffix ++ " (in pattern: " ++ map.pattern ++ ")"))
    else
      .ok (params ++ [{ value_type := .int, value_int64 := (strToInt64 value).getD 0 }])
  | .uint =>
    if value_suffix ≠ "" ∨ keyChar0 value = '-' ∨ strToInt64 value = none then
      .error (.invalidValue (field_name ++ " field's value isn't 64bit unsigned integer: " ++
        value ++ value_suffix ++ " (in pattern: " ++ map.pattern ++ ")"))
    else
      .ok (params ++ [{ value_type := .uint, value_int64 := (strToInt64 value).getD 0 }])
  | .double =>
    if value_suffix ≠ "" ∨ strToDoubleOk value = false then
      .error (.invalidValue (field_name ++ " field's value isn't a double: " ++
        value ++ value_suffix ++ " (in pattern: " ++ map.pattern ++ ")"))
    else
      .ok (params ++ [{ value_type := .double, value_double := value }])
  | .uuid =>
    if value_suffix ≠ "" ∨ guid128FromUuidString value = none then
      .error (.invalidValue (field_name ++ " field's value isn't an uuid: " ++
        value ++ value_suffix ++ " (in pattern: " ++ map.pattern ++ ")"))
    else
      .ok (params ++ [{ value_type := .uuid, value_uuid := (guid128FromUuidString value).getD [] }])
  | .hexblob =>
    match hexToBinary value.toList with
    | none =>
      .error (.invalidValue (field_name ++ " field's value isn't hexblob: " ++
        value ++ " (in pattern: " ++ map.pattern ++ ")"))
    | some bs =>
      .ok (params ++ [{ value_type := .hexblob,
                        value_binary := bs ++ value_suffix.toList.map Char.toNat }])

/-- `sql_dict_field_get_value` (lines 370-379). -/
def sql_dict_field_get_value (map : DictSqlMap) (field : DictSqlField)
    (value value_suffix : String) (params : List SqlDictParam) :
    Except DictError (List SqlDictParam) :=
  sql_dict_value_get map field.value_type field.name value value_suffix params

/- ------------------------------------------------------------------ -/
/- C3 component: the WHERE builder `sql_dict_where_build`.             -/
/- ------------------------------------------------------------------ -/

/-- The `exact_count` computation of `sql_dict_where_build` (line 404-405):
unsigned 32-bit arithmetic, so `count2-1` wraps around when `count2 = 0`. -/
def whereBuildExactCount (count count2 : Nat) (recurse_type : RecurseType) : Nat :=
  if count = count2 ∧ recurse_type ≠ .rNone then (count2 + (2 ^ 32 - 1)) % 2 ^ 32
  else count2

/-- The equality loop of `sql_dict_where_build` (lines 411-419): emit
an `AND`-joined `field = ?` for each already-bound pattern field, encoding
each value with an empty suffix. -/
def whereExact (map : DictSqlMap) :
    List (DictSqlField × String) → Nat → String → List SqlDictParam →
    Except DictError (String × List SqlDictParam)
  | [], _, query, params => .ok (query, params)
  | (f, v) :: rest, i, query, params =>
    match sql_dict_field_get_value map f v "" params with
    | .error e => .error e
    | .ok params2 =>
      whereExact map rest (i + 1)
        ((if i > 0 then query ++ " AND" else query) ++ " " ++ f.name ++ " = ?") params2

/-- Dummy pattern field used to model the C code's unchecked
`pattern_fields[i]` access; callers keep `i` in range. -/
def dummyField : DictSqlField := { name := "", value_type := .string }

/-- The `switch (recurse_type)` of `sql_dict_where_build` (lines 420-456),
entered with `i = exact_count`. -/
def whereRecursePart (map : DictSqlMap) (pattern_values : List String) (i : Nat)
    (recurse_type : RecurseType) (query : String) (params : List SqlDictParam) :
    Except DictError (String × List SqlDictParam) :=
  match recurse_type with
  | .rNone => .ok (query, params)
  | .rOne =>
    if i < pattern_values.length then
      match sql_dict_field_get_value map (map.pattern_fields.getD i dummyField)
          (pattern_values.getD i "") "/%" params with
      | .error e => .error e
      | .ok params2 =>
        match sql_dict_field_get_value map (map.pattern_fields.getD i dummyField)
            (pattern_values.getD i "") "/%/%" params2 with
        | .error e => .error e
        | .ok params3 =>
          .ok ((if i > 0 then query ++ " AND" else query) ++ " " ++
               (map.pattern_fields.getD i dummyField).name ++ " LIKE ?" ++ " AND " ++
               (map.pattern_fields.getD i dummyField).name ++ " NOT LIKE ?", params3)
    else
      .ok ((if i > 0 then query ++ " AND" else query) ++ " " ++
           (map.pattern_fields.getD i dummyField).name ++ " LIKE '%' AND " ++
           (map.pattern_fields.getD i dummyField).name ++ " NOT LIKE '%/%'", params)
  | .rFull =>
    if i < pattern_values.length then
      match sql_dict_field_get_value map (map.pattern_fields.getD i dummyField)
          (pattern_values.getD i "") "/%" params with
      | .error e => .error e
      | .ok params2 =>
        .ok ((if i > 0 then query ++ " AND" else query) ++ " " ++
             (map.pattern_fields.getD i dummyField).name ++ " LIKE ", params2)
    else
      .ok (query, params)

/-- The `add_username` tail of `sql_dict_where_build` (lines 457-464). -/
def whereUserPart (username : String) (map : DictSqlMap) (count2 : Nat)
    (add_username : Bool) (query : String) (params : List SqlDictParam) :
    String × List SqlDictParam :=
  if add_username then
    ((if count2 > 0 then query ++ " AND" else query) ++ " " ++ map.username_field ++ " = ?",
     params ++ [{ value_type := .string, value_str := username }])
  else (query, params)

/-- `sql_dict_where_build` (dict-sql.c lines 381-466): append the WHERE clause
for the given pattern values to `query`, appending the matching typed
parameters to `params`.  The `i_assert(count2 <= count)` is modelled as an
`assertFailed` error. -/
def sql_dict_where_build (username : String) (map : DictSqlMap)
    (values_arr : List String) (add_username : Bool) (recurse_type : RecurseType)
    (query : String) (params : List SqlDictParam) :
    Except DictError (String × List SqlDictParam) :=
  if values_arr.length > map.pattern_fields.length then
    .error (.assertFailed "count2 <= count")
  else if values_arr.length = 0 ∧ add_username = false then
    -- we want everything
    .ok (query, params)
  else if whereBuildExactCount map.pattern_fields.length values_arr.length recurse_type
      ≠ values_arr.length then
    .error (.keyPastPattern map.pattern)
  else
    match whereExact map
        ((map.pattern_fields.take
            (whereBuildExactCount map.pattern_fields.length values_arr.length recurse_type)).zip
          values_arr)
        0 (query ++ " WHERE") params with
    | .error e => .error e
    | .ok (q1, ps1) =>
      match whereRecursePart map values_arr
          (whereBuildExactCount map.pattern_fields.length values_arr.length recurse_type)
          recurse_type q1 ps1 with
      | .error e => .error e
      | .ok (q2, ps2) =>
        .ok (whereUserPart username map values_arr.length add_username q2 ps2)

/- ------------------------------------------------------------------ -/
/- C6 component: transaction staging.                                   -/
/- ------------------------------------------------------------------ -/

/-- The dictionary handle: the configured map list plus the relevant SQL
driver capability flags and table prefix (`struct sql_dict` together with the
`sql_get_flags`/`sql_db_table_prefix` driver surface it consults). -/
structure SqlDict where
  maps : List DictSqlMap
  flagOnDuplicateKey : Bool
  flagOnConflictDo : Bool
  tablePre : String
deriving DecidableEq

/-- `sql_dict_find_map` (lines 226-242) on a dictionary handle. -/
def sql_dict_find_map (dict : SqlDict) (path : String) :
    Option (DictSqlMap × List String) :=
  findMapIn dict.maps path

/-- The per-operation settings the staging code reads
(`struct dict_op_settings_private`, dict-private.h). -/
structure DictOpSettings where
  username : String
  expire_secs : Nat
  hide_log_values : Bool
deriving DecidableEq

/-- An SQL statement as handed to the driver: the query text, the bound
parameters in placeholder order, whether an affected-row slot was attached
(`sql_update_stmt_get_rows` vs `sql_update_stmt`), and the statement metadata
set by `sql_dict_transaction_stmt_init`. -/
structure Stmt where
  query : String
  params : List SqlDictParam
  getRows : Bool
  timestamp : Int
  hideLog : Bool
deriving DecidableEq

/-- One staged `set` (`struct sql_dict_prev` with `value.str`). -/
structure SqlDictPrevSet where
  map : DictSqlMap
  key : String
  value : String
deriving DecidableEq

/-- One staged `atomic_inc` (`struct sql_dict_prev` with `value.diff`). -/
structure SqlDictPrevInc where
  map : DictSqlMap
  key : String
  diff : Int
deriving DecidableEq

/-- `struct sql_dict_transaction_context`: statements already emitted to the
SQL transaction (in order), the two staging buffers (an empty list models a
not-yet-created / freed array), the latched error, the generic-layer `changed`
flag and the transaction timestamp.  The inc-row chain is recovered from
`stmts` (exactly the statements with `getRows = true`). -/
structure TransCtx where
  stmts : List Stmt
  prev_inc : List SqlDictPrevInc
  prev_set : List SqlDictPrevSet
  error : Option String
  changed : Bool
  timestamp : Int
deriving DecidableEq

/-- `sql_dict_transaction_init` (lines 973-984): fresh context. -/
def sql_dict_transaction_init : TransCtx :=
  { stmts := [], prev_inc := [], prev_set := [], error := none,
    changed := false, timestamp := 0 }

/-- `t_strcut(s, c)`: the part of `s` before the first occurrence of `c`. -/
def strcut (s : String) (c : Char) : String :=
  String.mk (s.toList.takeWhile (· ≠ c))

/-- The value-field loop of `sql_dict_set_query` (lines 1159-1173): build the
column-name part, the placeholder part and the value parameters. -/
def setQueryFieldsLoop : List (DictSqlMap × String) → Nat → String → String →
    List SqlDictParam → Except DictError (String × String × List SqlDictParam)
  | [], _, pre, suf, params => .ok (pre, suf, params)
  | (m, v) :: rest, i, pre, suf, params =>
    match sql_dict_value_get m (m.value_types.headD .string) "value" v "" params with
    | .error e => .error e
    | .ok params2 =>
      setQueryFieldsLoop rest (i + 1)
        ((if i > 0 then pre ++ "," else pre) ++ strcut m.value_field ',')
        ((if i > 0 then suf ++ "," else suf) ++ "?")
        params2

/-- The pattern-field loop of `sql_dict_set_query` (lines 1189-1200). -/
def setQueryPatternLoop (map0 : DictSqlMap) :
    List (DictSqlField × String) → String → String → List SqlDictParam →
    Except DictError (String × String × List SqlDictParam)
  | [], pre, suf, params => .ok (pre, suf, params)
  | (f, v) :: rest, pre, suf, params =>
    match sql_dict_field_get_value map0 f v "" params with
    | .error e => .error e
    | .ok params2 =>
      setQueryPatternLoop map0 rest (pre ++ "," ++ f.name) (suf ++ ",?") params2

/-- The `DO UPDATE SET`/`ON DUPLICATE KEY UPDATE` loop of `sql_dict_set_query`
(lines 1229-1244). -/
def setQueryUpdateLoop : List (DictSqlMap × String) → Nat → String →
    List SqlDictParam → Except DictError (String × List SqlDictParam)
  | [], _, pre, params => .ok (pre, params)
  | (m, v) :: rest, i, pre, params =>
    match sql_dict_value_get m (m.value_types.headD .string) "value" v "" params with
    | .error e => .error e
    | .ok params2 =>
      setQueryUpdateLoop rest (i + 1)
        ((if i > 0 then pre ++ "," else pre) ++ strcut m.value_field ',' ++ "=?")
        params2

/-- The `ON CONFLICT (…)` column list of `sql_dict_set_query` (lines 1209-1220). -/
def onConflictCols (map0 : DictSqlMap) (add_username : Bool) : String :=
  (String.intercalate "," (map0.pattern_fields.map (fun f => f.name))) ++
  (if add_username then
     (if map0.pattern_fields.length > 0 then "," else "") ++ map0.username_field
   else "")

/-- `sql_dict_set_query` (dict-sql.c lines 1127-1253): build the
INSERT…\[upsert\] statement for a flushed batch of staged sets.  `now` is
`ioloop_time`; `ctxTimestamp`/`hide` model `sql_dict_transaction_stmt_init`. -/
def sql_dict_set_query (dict : SqlDict) (set : DictOpSettings) (now : Int)
    (ctxTimestamp : Int) (buildFields : List (DictSqlMap × String))
    (pattern_values : List String) (add_username : Bool) :
    Except DictError Stmt :=
  match buildFields with
  | [] => .error (.assertFailed "field_count > 0")
  | (m0, _) :: _ =>
    if m0.pattern_fields.length ≠ pattern_values.length then
      .error (.assertFailed "count == count2")
    else
      match setQueryFieldsLoop buildFields 0
          ("INSERT INTO " ++ dict.tablePre ++ m0.table ++ " (") (") VALUES (") [] with
      | .error e => .error e
      | .ok (pre1, suf1, ps1) =>
        match setQueryPatternLoop m0 (m0.pattern_fields.zip pattern_values)
            (if (if m0.expire_field ≠ none ∧ set.expire_secs > 0
                 then now + set.expire_secs else 0) ≠ 0 then
               (if add_username then pre1 ++ "," ++ m0.username_field else pre1) ++
                 "," ++ m0.expire_field.getD ""
             else
               (if add_username then pre1 ++ "," ++ m0.username_field else pre1))
            (if (if m0.expire_field ≠ none ∧ set.expire_secs > 0
                 then now + set.expire_secs else 0) ≠ 0 then
               (if add_username then suf1 ++ ",?" else suf1) ++ ",?"
             else
               (if add_username then suf1 ++ ",?" else suf1))
            ((if add_username then
                ps1 ++ [{ value_type := .string, value_str := set.username }]
              else ps1) ++
             (if (if m0.expire_field ≠ none ∧ set.expire_secs > 0
                  then now + set.expire_secs else 0) ≠ 0 then
                [{ value_type := .uint,
                   value_int64 := if m0.expire_field ≠ none ∧ set.expire_secs > 0
                                  then now + set.expire_secs else 0 }]
              else [])) with
        | .error e => .error e
        | .ok (pre2, suf2, ps2) =>
          if dict.flagOnDuplicateKey then
            match setQueryUpdateLoop buildFields 0
                (pre2 ++ suf2 ++ ")" ++ " ON DUPLICATE KEY UPDATE ") ps2 with
            | .error e => .error e
            | .ok (pre3, ps3) =>
              .ok { query := (if (if m0.expire_field ≠ none ∧ set.expire_secs > 0
                                  then now + set.expire_secs else 0) ≠ 0 then
                                pre3 ++ "," ++ m0.expire_field.getD "" ++ "=?"
                              else pre3),
                    params := (if (if m0.expire_field ≠ none ∧ set.expire_secs > 0
                                   then now + set.expire_secs else 0) ≠ 0 then
                                 ps3 ++ [{ value_type := .uint,
                                           value_int64 := now + set.expire_secs }]
                               else ps3),
                    getRows := false, timestamp := ctxTimestamp, hideLog := set.hide_log_values }
          else if dict.flagOnConflictDo then
            match setQueryUpdateLoop buildFields 0
                (pre2 ++ suf2 ++ ")" ++ " ON CONFLICT (" ++
                 onConflictCols m0 add_username ++ ") DO UPDATE SET ") ps2 with
            | .error e => .error e
            | .ok (pre3, ps3) =>
              .ok { query := (if (if m0.expire_field ≠ none ∧ set.expire_secs > 0
                                  then now + set.expire_secs else 0) ≠ 0 then
                                pre3 ++ "," ++ m0.expire_field.getD "" ++ "=?"
                              else pre3),
                    params := (if (if m0.expire_field ≠ none ∧ set.expire_secs > 0
                                   then now + set.expire_secs else 0) ≠ 0 then
                                 ps3 ++ [{ value_type := .uint,
                                           value_int64 := now + set.expire_secs }]
                               else ps3),
                    getRows := false, timestamp := ctxTimestamp, hideLog := set.hide_log_values }
          else
            .ok { query := pre2 ++ suf2 ++ ")", params := ps2,
                  getRows := false, timestamp := ctxTimestamp, hideLog := set.hide_log_values }

/-- `sql_dict_update_query` (lines 1255-1286): build the `UPDATE … SET
f=f+?, …` text for a flushed batch of staged increments; `params` already
holds the INT delta parameters, the WHERE parameters are appended after. -/
def sql_dict_update_query (dict : SqlDict) (set : DictOpSettings)
    (buildFields : List (DictSqlMap × String)) (pattern_values : List String)
    (add_username : Bool) (params : List SqlDictParam) :
    Except DictError (String × List SqlDictParam) :=
  match buildFields with
  | [] => .error (.assertFailed "field_count > 0")
  | (m0, _) :: _ =>
    sql_dict_where_build set.username m0 pattern_values add_username .rNone
      ("UPDATE " ++ dict.tablePre ++ m0.table ++ " SET " ++
       String.intercalate ","
         (buildFields.map (fun f =>
            strcut f.1.value_field ',' ++ "=" ++ strcut f.1.value_field ',' ++ "+?")))
      params

/-- `sql_dict_maps_are_mergeable` (lines 1490-1518): whether a new operation
on `(map2, map2_key)` can join the batch started by a staged operation on
`(prev1_map, prev1_key)`. -/
def sql_dict_maps_are_mergeable (dict : SqlDict) (prev1_map : DictSqlMap)
    (prev1_key : String) (map2 : DictSqlMap) (map2_key : String)
    (map2_pattern_values : List String) : Bool :=
  if prev1_map.table ≠ map2.table then false
  else if keyChar0 prev1_key ≠ keyChar0 map2_key then false
  else if keyChar0 prev1_key = keyChar0 DICT_PATH_PRIVATE ∧
          prev1_map.username_field ≠ map2.username_field then false
  else
    match sql_dict_find_map dict prev1_key with
    | some (_, map1_pattern_values) => map1_pattern_values = map2_pattern_values
    | none => false

/-- `sql_dict_prev_set_flush` (lines 1299-1352): turn the staged sets into one
INSERT statement (or latch an error) and free the buffer. -/
def sql_dict_prev_set_flush (dict : SqlDict) (set : DictOpSettings) (now : Int)
    (ctx : TransCtx) : TransCtx :=
  match ctx.prev_set with
  | [] => ctx
  | hd :: _ =>
    if ctx.error ≠ none then { ctx with prev_set := [] }
    else
      match sql_dict_find_map dict hd.key with
      | none =>
        -- i_unreached(): the map was already found when the set was staged
        { ctx with prev_set := [],
                   error := some "BUG: unreached branch in sql_dict_prev_set_flush" }
      | some (_, pattern_values) =>
        match sql_dict_set_query dict set now ctx.timestamp
            (ctx.prev_set.map (fun p => (p.map, p.value))) pattern_values
            (keyChar0 hd.key = keyChar0 DICT_PATH_PRIVATE) with
        | .error e =>
          { ctx with prev_set := [],
                     error := some ("dict-sql: Failed to set " ++
                       toString ctx.prev_set.length ++ " fields (first " ++ hd.key ++
                       "): " ++ e.message) }
        | .ok stmt =>
          { ctx with prev_set := [], stmts := ctx.stmts ++ [stmt] }

/-- `sql_dict_prev_inc_flush` (lines 1423-1488): turn the staged increments
into one row-counted UPDATE statement (or latch an error) and free the
buffer. -/
def sql_dict_prev_inc_flush (dict : SqlDict) (set : DictOpSettings) (now : Int)
    (ctx : TransCtx) : TransCtx :=
  match ctx.prev_inc with
  | [] => ctx
  | hd :: _ =>
    if ctx.error ≠ none then { ctx with prev_inc := [] }
    else
      match sql_dict_find_map dict hd.key with
      | none =>
        { ctx with prev_inc := [],
                   error := some "BUG: unreached branch in sql_dict_prev_inc_flush" }
      | some (_, pattern_values) =>
        match sql_dict_update_query dict set
            (ctx.prev_inc.map (fun p => (p.map, "")))
            pattern_values (keyChar0 hd.key = keyChar0 DICT_PATH_PRIVATE)
            (ctx.prev_inc.map (fun p =>
               { value_type := .int, value_int64 := p.diff })) with
        | .error e =>
          { ctx with prev_inc := [],
                     error := some ("dict-sql: Failed to increase " ++
                       toString ctx.prev_inc.length ++ " fields (first " ++ hd.key ++
                       "): " ++ e.message) }
        | .ok (query, params) =>
          { ctx with prev_inc := [],
                     stmts := ctx.stmts ++
                       [{ query := query, params := params, getRows := true,
                          timestamp := ctx.timestamp, hideLog := set.hide_log_values }] }

/-- The tail of `sql_dict_set` after the prev_inc flush (lines 1537-1559):
find the map, flush a non-mergeable previous set, append the new entry. -/
def sqlDictSetStage (dict : SqlDict) (set : DictOpSettings) (now : Int)
    (ctx : TransCtx) (key value : String) : TransCtx :=
  match sql_dict_find_map dict key with
  | none => { ctx with error := some ("sql dict set: Invalid/unmapped key: " ++ key) }
  | some (map, pattern_values) =>
    match ctx.prev_set with
    | [] =>
      { ctx with prev_set := [{ map := map, key := key, value := value }] }
    | p :: _ =>
      if sql_dict_maps_are_mergeable dict p.map p.key map key pattern_values then
        { ctx with prev_set := ctx.prev_set ++ [{ map := map, key := key, value := value }] }
      else
        { sql_dict_prev_set_flush dict set now ctx with
          prev_set := [{ map := map, key := key, value := value }] }

/-- `sql_dict_set` (dict-sql.c lines 1520-1559). -/
def sql_dict_set (dict : SqlDict) (set : DictOpSettings) (now : Int)
    (ctx : TransCtx) (key value : String) : TransCtx :=
  if ctx.error ≠ none then ctx
  else
    sqlDictSetStage dict set now
      (if ctx.prev_inc ≠ [] then sql_dict_prev_inc_flush dict set now ctx else ctx)
      key value

/-- The tail of `sql_dict_atomic_inc` after the prev_set flush (lines 1578-1600). -/
def sqlDictIncStage (dict : SqlDict) (set : DictOpSettings) (now : Int)
    (ctx : TransCtx) (key : String) (diff : Int) : TransCtx :=
  match sql_dict_find_map dict key with
  | none => { ctx with error := some ("sql dict atomic inc: Invalid/unmapped key: " ++ key) }
  | some (map, pattern_values) =>
    match ctx.prev_inc with
    | [] =>
      { ctx with prev_inc := [{ map := map, key := key, diff := diff }] }
    | p :: _ =>
      if sql_dict_maps_are_mergeable dict p.map p.key map key pattern_values then
        { ctx with prev_inc := ctx.prev_inc ++ [{ map := map, key := key, diff := diff }] }
      else
        { sql_dict_prev_inc_flush dict set now ctx with
          prev_inc := [{ map := map, key := key, diff := diff }] }

/-- `sql_dict_atomic_inc` (dict-sql.c lines 1561-1600). -/
def sql_dict_atomic_inc (dict : SqlDict) (set : DictOpSettings) (now : Int)
    (ctx : TransCtx) (key : String) (diff : Int) : TransCtx :=
  if ctx.error ≠ none then ctx
  else
    sqlDictIncStage dict set now
      (if ctx.prev_set ≠ [] then sql_dict_prev_set_flush dict set now ctx else ctx)
      key diff

/-- The tail of `sql_dict_unset` after the two flushes (lines 1377-1395). -/
def sqlDictUnsetStage (dict : SqlDict) (set : DictOpSettings)
    (ctx : TransCtx) (key : String) : TransCtx :=
  match sql_dict_find_map dict key with
  | none => { ctx with error := some ("dict-sql: Invalid/unmapped key: " ++ key) }
  | some (map, pattern_values) =>
    match sql_dict_where_build set.username map pattern_values
        (keyChar0 key = keyChar0 DICT_PATH_PRIVATE) .rNone
        ("DELETE FROM " ++ dict.tablePre ++ map.table) [] with
    | .error e =>
      { ctx with error := some ("dict-sql: Failed to delete " ++ key ++ ": " ++ e.message) }
    | .ok (query, params) =>
      { ctx with stmts := ctx.stmts ++
          [{ query := query, params := params, getRows := false,
             timestamp := ctx.timestamp, hideLog := set.hide_log_values }] }

/-- `sql_dict_unset` (dict-sql.c lines 1354-1396). -/
def sql_dict_unset (dict : SqlDict) (set : DictOpSettings) (now : Int)
    (ctx : TransCtx) (key : String) : TransCtx :=
  if ctx.error ≠ none then ctx
  else
    sqlDictUnsetStage dict set
      ((fun c => if c.prev_set ≠ [] then sql_dict_prev_set_flush dict set now c else c)
        (if ctx.prev_inc ≠ [] then sql_dict_prev_inc_flush dict set now ctx else ctx))
      key

/-- `enum dict_commit_ret` (dict.h): the commit result codes. -/
inductive CommitRet
  | ok
  | notfound
  | failed
  | writeUncertain
deriving DecidableEq

/-- Outcome of a synchronous commit: the result handed to the callback,
whether the SQL transaction was rolled back or committed, and the context as
it stood when the backend commit was attempted (its `stmts` are the
statements that reached the backend). -/
structure CommitOutcome where
  ret : CommitRet
  errorMsg : Option String
  rolledBack : Bool
  committed : Bool
  ctxAfter : TransCtx
deriving DecidableEq

/-- The commit-entry flushes (lines 1052-1056): prev_inc, then prev_set. -/
def sqlDictCommitFlush (dict : SqlDict) (set : DictOpSettings) (now : Int)
    (ctx : TransCtx) : TransCtx :=
  (fun c => if c.prev_set ≠ [] then sql_dict_prev_set_flush dict set now c else c)
    (if ctx.prev_inc ≠ [] then sql_dict_prev_inc_flush dict set now ctx else ctx)

/-- `sql_dict_transaction_has_nonexistent` (lines 998-1009): true when some
flushed row-counted UPDATE affected zero rows.  `affected` is the per-statement
row count reported by the SQL driver into the inc-row slots. -/
def sql_dict_transaction_has_nonexistent (ctx : TransCtx) (affected : Stmt → Nat) : Bool :=
  (ctx.stmts.filter (fun s => s.getRows)).any (fun s => affected s = 0)

/-- `sql_dict_transaction_commit` (lines 1042-1087), synchronous path
(`async = FALSE`).  `backendError` is the result of
`sql_transaction_commit_s`; `affected` the row counts the driver stored into
the inc-row slots. -/
def sql_dict_transaction_commit (dict : SqlDict) (set : DictOpSettings) (now : Int)
    (ctx : TransCtx) (backendError : Option String) (affected : Stmt → Nat) :
    CommitOutcome :=
  match (sqlDictCommitFlush dict set now ctx).error with
  | some e =>
    { ret := .failed, errorMsg := some e, rolledBack := true, committed := false,
      ctxAfter := sqlDictCommitFlush dict set now ctx }
  | none =>
    if (sqlDictCommitFlush dict set now ctx).changed = false then
      -- nothing changed, no need to commit
      { ret := .ok, errorMsg := none, rolledBack := true, committed := false,
        ctxAfter := sqlDictCommitFlush dict set now ctx }
    else
      match backendError with
      | some e =>
        { ret := .failed, errorMsg := some ("sql dict: commit failed: " ++ e),
          rolledBack := false, committed := false,
          ctxAfter := sqlDictCommitFlush dict set now ctx }
      | none =>
        { ret := if sql_dict_transaction_has_nonexistent
                    (sqlDictCommitFlush dict set now ctx) affected
                 then .notfound else .ok,
          errorMsg := none, rolledBack := false, committed := true,
          ctxAfter := sqlDictCommitFlush dict set now ctx }

/-- One transaction mutation, for stating whole-transaction invariants. -/
inductive DictOp
  | setOp (key value : String)
  | incOp (key : String) (diff : Int)
  | unsetOp (key : String)

/-- Dispatch one mutation to the driver functions. -/
def applyOp (dict : SqlDict) (set : DictOpSettings) (now : Int)
    (ctx : TransCtx) : DictOp → TransCtx
  | .setOp k v => sql_dict_set dict set now ctx k v
  | .incOp k d => sql_dict_atomic_inc dict set now ctx k d
  | .unsetOp k => sql_dict_unset dict set now ctx k

/- ------------------------------------------------------------------ -/
/- C4 component: lookup result handling and the expiry-skipping         -/
/- iterator.                                                            -/
/- ------------------------------------------------------------------ -/

/-- A driver result set: the remaining rows (each row a list of nullable
column values) and the error, if any, reported once the rows are exhausted. -/
structure SqlResult where
  rows : List (List (Option String))
  err : Option String
deriving DecidableEq

/-- Result of advancing a result set by one row. -/
inductive NextRowRet
  | row (r : List (Option String)) (rest : SqlResult)
  | eof
  | fail (msg : String)
deriving DecidableEq

/-- `sql_result_next_row` of the driver surface. -/
def sql_result_next_row (res : SqlResult) : NextRowRet :=
  match res.rows with
  | [] => match res.err with
          | some e => .fail e
          | none => .eof
  | r :: rest => .row r { rows := rest, err := res.err }

/-- The `while` loop of `sql_dict_result_next_row` (dict-sql.c lines
574-593), recursing over the remaining rows: skip every row whose expiry
column (column 0) parses and is not in the future.  `now` is `ioloop_time`. -/
def nextRowLoop (map : DictSqlMap) (now : Int) (err : Option String) :
    List (List (Option String)) → NextRowRet
  | [] =>
    match err with
    | some e => .fail e
    | none => .eof
  | r :: rest =>
    if map.expire_field ≠ none then
      match r.getD 0 none with
      | none => .row r { rows := rest, err := err }
      | some ev =>
        match strToTime ev with
        | none => .row r { rows := rest, err := err }
        | some expire_timestamp =>
          if expire_timestamp > now then .row r { rows := rest, err := err }
          else
            -- expired - jump to the next row
            nextRowLoop map now err rest
    else .row r { rows := rest, err := err }

/-- `sql_dict_result_next_row` (dict-sql.c lines 574-593). -/
def sql_dict_result_next_row (map : DictSqlMap) (now : Int) (res : SqlResult) :
    NextRowRet :=
  nextRowLoop map now res.err res.rows

/-- `sql_dict_result_unescape` (lines 507-540) on one nullable column value. -/
def sql_dict_result_unescape (t : DictSqlType) (cell : Option String) : String :=
  match t with
  | .string | .int | .uint | .double =>
    match cell with
    | none => ""
    | some v => v
  | .uuid =>
    match cell with
    | none => ""
    | some v =>
      -- the C code ignores the parse result; an unparseable value leaves the
      -- guid buffer unspecified, modelled as all zero bytes
      guid128ToUuidRecord ((guid128FromUuidString v).getD (List.replicate 16 0))
  | .hexblob =>
    match cell with
    | none => binaryToHex []
    | some v => binaryToHex (v.toList.map Char.toNat)

/-- `sql_dict_result_unescape_values` (lines 542-560): decode the value
columns of a surviving row (skipping a leading expire column). -/
def sql_dict_result_unescape_values (map : DictSqlMap)
    (r : List (Option String)) : List String :=
  (List.range map.values_count).map (fun i =>
    sql_dict_result_unescape (map.value_types.getD i .string)
      (r.getD ((if map.expire_field ≠ none then 1 else 0) + i) none))

/-- `struct dict_lookup_result` as filled in by the lookup paths: `ret`,
the decoded `values`, `value = values[0]` (`none` models the C `NULL`), and
the error message. -/
structure DictLookupResult where
  ret : Int
  values : List String
  value : Option String
  error : Option String
deriving DecidableEq

/-- `sql_dict_lookup_async_callback` (dict-sql.c lines 627-651): the result
handed to the async lookup callback.  In C, `result.values` is a
NULL-terminated array of `values_count` strings, so `result.value =
result.values[0]` is `NULL` exactly when the array is empty — modelled by
`List.head?`. -/
def sql_dict_lookup_async_callback (map : DictSqlMap) (now : Int)
    (res : SqlResult) : DictLookupResult :=
  match sql_dict_result_next_row map now res with
  | .fail e => { ret := -1, values := [], value := none, error := some e }
  | .eof => { ret := 0, values := [], value := none, error := none }
  | .row r _ =>
    if (sql_dict_result_unescape_values map r).head? = none then
      -- NULL value returned, treated as "not found"
      { ret := 0, values := sql_dict_result_unescape_values map r,
        value := (sql_dict_result_unescape_values map r).head?, error := none }
    else
      { ret := 1, values := sql_dict_result_unescape_values map r,
        value := (sql_dict_result_unescape_values map r).head?, error := none }

/-- The result-consuming tail of the synchronous `sql_dict_lookup`
(dict-sql.c lines 595-619), after the statement was built and executed:
`ret < 0` reports the backend error, `ret > 0` decodes the value columns. -/
def sql_dict_lookup_from_result (map : DictSqlMap) (now : Int)
    (res : SqlResult) : Int × List String × Option String :=
  match sql_dict_result_next_row map now res with
  | .fail e => (-1, [], some ("dict sql lookup failed: " ++ e))
  | .eof => (0, [], none)
  | .row r _ => (1, sql_dict_result_unescape_values map r, none)

/- ------------------------------------------------------------------ -/
/- C7 component: the expiry reaper.                                     -/
/- ------------------------------------------------------------------ -/

/-- `sql_dict_expire_map` (dict-sql.c lines 1602-1629): the statements of the
fresh one-statement SQL transaction the reaper runs for one expiring map.
`tvSec`/`tvUsec` are `ioloop_timeval`. -/
def sql_dict_expire_map (dict : SqlDict) (map : DictSqlMap)
    (tvSec tvUsec : Int) : List Stmt :=
  [{ query := "DELETE FROM " ++ dict.tablePre ++ map.table ++ " WHERE " ++
      map.expire_field.getD "" ++ " <= ?",
     params := [{ value_type := .int, value_int64 := tvSec * 1000000 + tvUsec }],
     getRows := false, timestamp := 0, hideLog := false }]

/-- `sql_dict_expire_scan` (dict-sql.c lines 1631-1645): one fresh transaction
per map with an `expire_field`, plus the scan's return value (`1` when at
least one expiring map exists, else `0`; backend commit errors are outside
this model). -/
def sql_dict_expire_scan (dict : SqlDict) (tvSec tvUsec : Int) :
    List (List Stmt) × Int :=
  (dict.maps.filterMap (fun m =>
     if m.expire_field ≠ none then some (sql_dict_expire_map dict m tvSec tvUsec)
     else none),
   if dict.maps.any (fun m => m.expire_field ≠ none) then 1 else 0)

/- ------------------------------------------------------------------ -/
/- Theorems.                                                            -/
/- ------------------------------------------------------------------ -/

theorem wfPattern_dollar_cons {q : Char} {qr : List Char}
    (h : wfPattern ('$' :: q :: qr) = true) :
    q = '/' ∧ qr ≠ [] ∧ wfPattern (q :: qr) = true := by
  have h2 : (decide (q = '/') && !qr.isEmpty && wfPattern (q :: qr)) = true := h
  simp only [Bool.and_eq_true, decide_eq_true_eq, Bool.not_eq_true'] at h2
  refine ⟨h2.1.1, ?_, h2.2⟩
  intro hq
  subst hq
  simp at h2

theorem wfPattern_cons_of_ne {p : Char} {pr : List Char} (hp : p ≠ '$') :
    wfPattern (p :: pr) = wfPattern pr := by
  simp [wfPattern, hp]

theorem patternSubst_dollar (ps : List Char) (v : String) (vs : List String) :
    patternSubst ('$' :: ps) (v :: vs) = v.toList ++ patternSubst ps vs := by
  simp [patternSubst]

theorem patternSubst_cons_of_ne {c : Char} (ps : List Char) (vs : List String)
    (hc : c ≠ '$') : patternSubst (c :: ps) vs = c :: patternSubst ps vs := by
  simp [patternSubst, hc]

/-- Core of C7: whatever an exact (`partial_ok = FALSE`) match of a
well-formed pattern returns, substituting the extracted values back into the
still-unread pattern suffix reproduces the unread path suffix. -/
theorem mLoop_exact_reconstruct (patFull : List Char) (recurse : Bool)
    (fuel : Nat) (pat path : List Char) (vals : List String) (patN pathN : Nat) :
    wfPattern pat = true →
    ∀ vals' a b,
      mLoop patFull false recurse fuel pat path vals patN pathN = some (vals', a, b) →
      ∃ d, vals' = vals ++ d ∧ patternSubst pat d = path := by
  induction fuel, pat, path, vals, patN, pathN using mLoop.induct patFull false recurse with
  | case1 pat path vals patN pathN =>
    intro _ vals' a b h
    simp [mLoop] at h
  | case2 n vals patN pathN =>
    intro _ vals' a b h
    simp only [mLoop, Option.some.injEq, Prod.mk.injEq] at h
    exact ⟨[], by simp [← h.1], by simp [patternSubst]⟩
  | case3 n c cr x x1 x2 =>
    intro _ vals' a b h
    simp [mLoop] at h
  | case4 n p pr vals patN pathN hpo =>
    intro _ vals' a b h
    simp [mLoop] at h
  | case5 n p pr vals patN pathN hpo =>
    simp at hpo
  | case6 n p pr vals patN pathN hpo =>
    simp at hpo
  | case7 n p pr vals patN pathN hpo =>
    simp at hpo
  | case8 n p pr vals patN pathN hpo =>
    simp at hpo
  | case9 fuel c cr vals patN pathN hpo =>
    simp at hpo
  | case10 fuel c cr vals patN pathN hpo =>
    simp at hpo
  | case11 fuel c cr vals patN pathN _ =>
    intro _ vals' a b h
    rw [mLoop.eq_def] at h
    simp only [Bool.false_eq_true, if_false, Option.some.injEq, Prod.mk.injEq,
      reduceIte] at h
    exact ⟨[String.mk (c :: cr)], h.1.symm, by simp [patternSubst]⟩
  | case12 fuel c cr vals patN pathN q qr idx hidx ih =>
    intro hwf vals' a b h
    obtain ⟨hq, hqr, hwf2⟩ := wfPattern_dollar_cons hwf
    rw [mLoop.eq_def] at h
    simp only [reduceIte, hidx] at h
    obtain ⟨d, hd, hsub⟩ := ih hwf2 vals' a b h
    refine ⟨String.mk ((c :: cr).take idx) :: d, by simp [hd], ?_⟩
    rw [patternSubst_dollar]
    rw [hsub]
    simp [String.toList]
  | case13 fuel c cr vals patN pathN q qr hidx ih =>
    intro hwf vals' a b h
    obtain ⟨hq, hqr, hwf2⟩ := wfPattern_dollar_cons hwf
    rw [mLoop.eq_def] at h
    simp only [reduceIte, hidx] at h
    rcases hq2 : qr with _ | ⟨r, rs⟩
    · exact absurd hq2 hqr
    · rw [hq2] at h
      cases fuel with
      | zero => simp [mLoop] at h
      | succ n => simp [mLoop] at h
  | case14 fuel pr c cr vals patN pathN hc ih =>
    intro hwf vals' a b h
    rw [mLoop.eq_def] at h
    simp only [if_neg hc, reduceIte] at h
    obtain ⟨d, hd, hsub⟩ := ih ((wfPattern_cons_of_ne hc).symm.trans hwf) vals' a b h
    exact ⟨d, hd, by rw [patternSubst_cons_of_ne _ _ hc, hsub]⟩
  | case15 fuel p pr c cr vals patN pathN hp hpc =>
    intro _ vals' a b h
    rw [mLoop.eq_def] at h
    simp [if_neg hp, if_neg hpc] at h

/-- Map with pattern `a/$b`, exhibiting a `$` that is followed by a literal
character: the matcher accepts it, the reconstruction does not return the
path. -/
def mapC7x : DictSqlMap :=
  { pattern := "a/$b", table := "t", username_field := "u", value_field := "v",
    value_types := [.string], values_count := 1, expire_field := none,
    pattern_fields := [{ name := "f1", value_type := .string }] }

/-- C7 counterexample: for pattern `a/$b` and path `a/xyz` the exact matcher
succeeds with the extracted value `xyz`, yet substituting the values back
into the pattern gives `a/xyzb`, which is not the original path.  (In the C
loop, when the `$` consumes the rest of the path, `pat` is advanced past the
character that follows the `$` without matching it.) -/
theorem C7_counterexample :
    dict_sql_map_match mapC7x "a/xyz" false false = some (["xyz"], 4, 5) ∧
    patternSubst mapC7x.pattern.toList ["xyz"] ≠ "a/xyz".toList := by
  constructor
  · decide
  · decide

/-- C7 (amended): for every map pattern in which each `$` is either the final
pattern character or is followed by `/` plus at least one further character,
and every path accepted by the exact matcher (`partial_ok = false`,
`recurse = false`, as used by `sql_dict_find_map`), replacing each `$` in the
pattern, in order, by the extracted pattern values reproduces the original
path exactly. -/
theorem C7_match_reconstructs_path (map : DictSqlMap) (path : String)
    (vals : List String) (a b : Nat)
    (hwf : wfPattern map.pattern.toList = true)
    (h : dict_sql_map_match map path false false = some (vals, a, b)) :
    patternSubst map.pattern.toList vals = path.toList := by
  obtain ⟨d, hd, hs⟩ := mLoop_exact_reconstruct map.pattern.toList false
    (map.pattern.toList.length + 1) map.pattern.toList path.toList [] 0 0 hwf
    vals a b h
  simp only [List.nil_append] at hd
  rw [hd, hs]

/-- Map with pattern `shared/x/$/$/y`, a well-formed pattern used to witness
C7 on a concrete accepted path. -/
def mapC7w : DictSqlMap :=
  { pattern := "shared/x/$/$/y", table := "t", username_field := "u",
    value_field := "v", value_types := [.string], values_count := 1,
    expire_field := none,
    pattern_fields := [{ name := "f1", value_type := .string },
                       { name := "f2", value_type := .string }] }

/-- C7 witness: the amended theorem applied at the concrete well-formed
pattern `shared/x/$/$/y` and path `shared/x/1/2/y`. -/
theorem C7_witness :
    wfPattern mapC7w.pattern.toList = true ∧
    dict_sql_map_match mapC7w "shared/x/1/2/y" false false = some (["1", "2"], 14, 14) ∧
    patternSubst mapC7w.pattern.toList ["1", "2"] = "shared/x/1/2/y".toList :=
  ⟨by decide, by decide,
   C7_match_reconstructs_path mapC7w "shared/x/1/2/y" ["1", "2"] 14 14
     (by decide) (by decide)⟩

theorem wrapSub_ne (n : Nat) : (n + (2 ^ 32 - 1)) % 2 ^ 32 ≠ n := by
  omega

theorem value_get_no_kpp (map : DictSqlMap) (t : DictSqlType)
    (fn v sfx : String) (ps : List SqlDictParam) (p : String) :
    sql_dict_value_get map t fn v sfx ps ≠ .error (.keyPastPattern p) := by
  cases t <;> simp only [sql_dict_value_get] <;> split <;> simp

theorem whereExact_no_kpp (map : DictSqlMap) (l : List (DictSqlField × String))
    (i : Nat) (q : String) (ps : List SqlDictParam) (p : String) :
    whereExact map l i q ps ≠ .error (.keyPastPattern p) := by
  induction l generalizing i q ps with
  | nil => simp [whereExact]
  | cons fv rest ih =>
    obtain ⟨f, v⟩ := fv
    simp only [whereExact, sql_dict_field_get_value]
    split
    · rename_i e he
      intro hh
      injection hh with hh2
      exact value_get_no_kpp map f.value_type f.name v "" ps p (hh2 ▸ he)
    · exact ih (i + 1) _ _

theorem whereRecursePart_no_kpp (map : DictSqlMap) (pattern_values : List String)
    (i : Nat) (recurse_type : RecurseType) (q : String) (ps : List SqlDictParam)
    (p : String) :
    whereRecursePart map pattern_values i recurse_type q ps ≠
      .error (.keyPastPattern p) := by
  cases recurse_type with
  | rNone => simp [whereRecursePart]
  | rOne =>
    simp only [whereRecursePart]
    split
    · split
      · rename_i e he
        intro hh
        injection hh with hh2
        exact value_get_no_kpp map _ _ _ _ _ p (hh2 ▸ he)
      · split
        · rename_i e he
          intro hh
          injection hh with hh2
          exact value_get_no_kpp map _ _ _ _ _ p (hh2 ▸ he)
        · simp
    · simp
  | rFull =>
    simp only [whereRecursePart]
    split
    · split
      · rename_i e he
        intro hh
        injection hh with hh2
        exact value_get_no_kpp map _ _ _ _ _ p (hh2 ▸ he)
      · simp
    · simp

/-- C2: whenever `sql_dict_where_build` emits a WHERE clause (at least one
pattern value is supplied or `add_username` is true), it fails with the
`KeyPastPattern` error exactly when the number of supplied pattern values
differs from `exact_count`, where `exact_count` is the number of supplied
values minus one when `recurse != NONE` and the values fully bind the map's
pattern fields, and the number of supplied values otherwise. -/
theorem C2_key_past_pattern_iff (username : String) (map : DictSqlMap)
    (values_arr : List String) (add_username : Bool) (recurse_type : RecurseType)
    (query : String) (params : List SqlDictParam)
    (hle : values_arr.length ≤ map.pattern_fields.length)
    (hw : ¬(values_arr.length = 0 ∧ add_username = false)) :
    (∃ p, sql_dict_where_build username map values_arr add_username recurse_type
        query params = .error (.keyPastPattern p)) ↔
    (values_arr.length : Int) ≠
      (if map.pattern_fields.length = values_arr.length ∧ recurse_type ≠ .rNone
       then (values_arr.length : Int) - 1 else (values_arr.length : Int)) := by
  have hRHS : ((values_arr.length : Int) ≠
      (if map.pattern_fields.length = values_arr.length ∧ recurse_type ≠ .rNone
       then (values_arr.length : Int) - 1 else (values_arr.length : Int))) ↔
      (map.pattern_fields.length = values_arr.length ∧ recurse_type ≠ .rNone) := by
    by_cases hC : map.pattern_fields.length = values_arr.length ∧ recurse_type ≠ .rNone
    · rw [if_pos hC]
      constructor
      · intro _; exact hC
      · intro _; omega
    · rw [if_neg hC]
      simp [hC]
  rw [hRHS]
  constructor
  · intro ⟨p, hp⟩
    by_contra hC
    rw [sql_dict_where_build] at hp
    rw [if_neg (by omega : ¬ values_arr.length > map.pattern_fields.length),
        if_neg hw] at hp
    rw [whereBuildExactCount, if_neg hC] at hp
    rw [if_neg (by simp)] at hp
    rcases he : whereExact map
        ((map.pattern_fields.take values_arr.length).zip values_arr) 0
        (query ++ " WHERE") params with e | ⟨q1, ps1⟩
    · rw [he] at hp
      simp only [Except.error.injEq] at hp
      exact whereExact_no_kpp map _ 0 _ params p (hp ▸ he)
    · rw [he] at hp
      simp only [] at hp
      rcases hr : whereRecursePart map values_arr values_arr.length recurse_type q1 ps1
          with e | ⟨q2, ps2⟩
      · rw [hr] at hp
        simp only [Except.error.injEq] at hp
        exact whereRecursePart_no_kpp map _ _ _ _ _ p (hp ▸ hr)
      · rw [hr] at hp
        simp only [] at hp
        exact absurd hp (by simp)
  · intro hC
    refine ⟨map.pattern, ?_⟩
    rw [sql_dict_where_build]
    rw [if_neg (by omega : ¬ values_arr.length > map.pattern_fields.length),
        if_neg hw]
    rw [whereBuildExactCount, if_pos hC]
    rw [if_pos (wrapSub_ne values_arr.length)]

/-- Concrete one-field STRING map used by several witnesses. -/
def mapQuota : DictSqlMap :=
  { pattern := "shared/quota/$", table := "q", username_field := "u",
    value_field := "bytes", value_types := [.string], values_count := 1,
    expire_field := none,
    pattern_fields := [{ name := "f1", value_type := .string }] }

/-- C2 witness: the iff applied at the fully-bound `recurse = ONE` call (the
error fires) and its `recurse = NONE` counterpart (it does not). -/
theorem C2_witness :
    (["alice"].length ≤ mapQuota.pattern_fields.length ∧
      ¬(["alice"].length = 0 ∧ false = false)) ∧
    ((∃ p, sql_dict_where_build "bob" mapQuota ["alice"] false .rOne "" [] =
        .error (.keyPastPattern p)) ↔
     ((["alice"].length : Int) ≠
       (if mapQuota.pattern_fields.length = ["alice"].length ∧ RecurseType.rOne ≠ .rNone
        then ((["alice"].length : Int)) - 1 else (["alice"].length : Int)))) :=
  ⟨⟨by decide, by decide⟩,
   C2_key_past_pattern_iff "bob" mapQuota ["alice"] false .rOne "" []
     (by decide) (by decide)⟩

theorem value_get_ok_length (map : DictSqlMap) (t : DictSqlType)
    (fn v sfx : String) (ps ps2 : List SqlDictParam)
    (h : sql_dict_value_get map t fn v sfx ps = .ok ps2) :
    ps2.length = ps.length + 1 := by
  cases t <;> simp only [sql_dict_value_get] at h <;> (try split at h) <;>
    first
      | (simp only [Except.ok.injEq] at h
         subst h
         simp)
      | exact absurd h (by simp)

theorem whereExact_ok_length (map : DictSqlMap) (l : List (DictSqlField × String))
    (i : Nat) (q q1 : String) (ps ps1 : List SqlDictParam)
    (h : whereExact map l i q ps = .ok (q1, ps1)) :
    ps1.length = ps.length + l.length := by
  induction l generalizing i q ps with
  | nil =>
    simp only [whereExact, Except.ok.injEq, Prod.mk.injEq] at h
    simp [← h.2]
  | cons fv rest ih =>
    obtain ⟨f, v⟩ := fv
    simp only [whereExact, sql_dict_field_get_value] at h
    split at h
    · exact absurd h (by simp)
    · rename_i ps2 hg
      have h1 := value_get_ok_length map f.value_type f.name v "" ps ps2 hg
      have h2 := ih (i + 1) _ ps2 h
      simp only [List.length_cons]
      omega

/-- C1 (amended): for a WHERE build with `recurse = ONE` that emits a WHERE
clause, (a) when the pattern values fully bind the map's pattern fields the
builder does not succeed: it fails with the `KeyPastPattern` error before
reaching the recursion clause; and (b) when there is no prefix value for the
next field (the values do not fully bind), it appends the literal
`field LIKE '%' AND field NOT LIKE '%/%'` for the next unbound field, adding
no parameters for it (only the equality parameters of the bound fields, plus
the optional username parameter, are bound). -/
theorem C1_recurse_one (username : String) (map : DictSqlMap)
    (values_arr : List String) (add_username : Bool) (query : String)
    (params : List SqlDictParam)
    (hw : ¬(values_arr.length = 0 ∧ add_username = false)) :
    (map.pattern_fields.length = values_arr.length →
      sql_dict_where_build username map values_arr add_username .rOne query params =
        .error (.keyPastPattern map.pattern)) ∧
    (values_arr.length < map.pattern_fields.length →
      ∀ q1 ps1,
        whereExact map ((map.pattern_fields.take values_arr.length).zip values_arr)
          0 (query ++ " WHERE") params = .ok (q1, ps1) →
        ps1.length = params.length + values_arr.length ∧
        sql_dict_where_build username map values_arr add_username .rOne query params =
          .ok (whereUserPart username map values_arr.length add_username
            ((if values_arr.length > 0 then q1 ++ " AND" else q1) ++ " " ++
              (map.pattern_fields.getD values_arr.length dummyField).name ++
              " LIKE '%' AND " ++
              (map.pattern_fields.getD values_arr.length dummyField).name ++
              " NOT LIKE '%/%'") ps1)) := by
  constructor
  · intro hfull
    have hCond : map.pattern_fields.length = values_arr.length ∧
        RecurseType.rOne ≠ RecurseType.rNone := ⟨hfull, by decide⟩
    rw [sql_dict_where_build,
        if_neg (by omega : ¬ values_arr.length > map.pattern_fields.length),
        if_neg hw, whereBuildExactCount, if_pos hCond,
        if_pos (wrapSub_ne values_arr.length)]
  · intro hlt q1 ps1 he
    have hcnt : whereBuildExactCount map.pattern_fields.length values_arr.length
        .rOne = values_arr.length := by
      rw [whereBuildExactCount, if_neg (by omega)]
    refine ⟨?_, ?_⟩
    · have := whereExact_ok_length map _ 0 _ q1 params ps1 he
      rw [this]
      simp [List.length_zip, List.length_take]
      omega
    · rw [sql_dict_where_build,
          if_neg (by omega : ¬ values_arr.length > map.pattern_fields.length),
          if_neg hw, hcnt]
      rw [if_neg (by simp)]
      rw [he]
      simp only []
      simp only [whereRecursePart]
      rw [if_neg (by omega : ¬ values_arr.length < values_arr.length)]

/-- Map with two STRING pattern fields (`shared/x/$/$`), used for the C1
counterexample and witness. -/
def mapTwo : DictSqlMap :=
  { pattern := "shared/x/$/$", table := "t2", username_field := "u",
    value_field := "v", value_types := [.string], values_count := 1,
    expire_field := none,
    pattern_fields := [{ name := "f1", value_type := .string },
                       { name := "f2", value_type := .string }] }

/-- C1 counterexample: with `recurse = ONE` and pattern values that fully
bind the pattern fields (here both fields of `shared/x/$/$` bound), the
builder does not succeed with `f2 LIKE ? AND f2 NOT LIKE ?` and two suffix
parameters — it fails with the `KeyPastPattern` error. -/
theorem C1_counterexample :
    sql_dict_where_build "bob" mapTwo ["a", "b"] false .rOne "" [] =
      .error (.keyPastPattern "shared/x/$/$") := rfl

/-- C1 witness: the amended theorem applied at `shared/x/$/$` with one bound
value (error case instantiated vacuously; literal case at the concrete
inputs). -/
theorem C1_witness :
    ¬(["a"].length = 0 ∧ false = false) ∧
    (["a"].length < mapTwo.pattern_fields.length →
      ∀ q1 ps1,
        whereExact mapTwo ((mapTwo.pattern_fields.take ["a"].length).zip ["a"])
          0 ("" ++ " WHERE") [] = .ok (q1, ps1) →
        ps1.length = ([] : List SqlDictParam).length + ["a"].length ∧
        sql_dict_where_build "bob" mapTwo ["a"] false .rOne "" [] =
          .ok (whereUserPart "bob" mapTwo ["a"].length false
            ((if ["a"].length > 0 then q1 ++ " AND" else q1) ++ " " ++
              (mapTwo.pattern_fields.getD ["a"].length dummyField).name ++
              " LIKE '%' AND " ++
              (mapTwo.pattern_fields.getD ["a"].length dummyField).name ++
              " NOT LIKE '%/%'") ps1)) :=
  ⟨by decide,
   (C1_recurse_one "bob" mapTwo ["a"] false "" [] (by decide)).2⟩

theorem prev_set_flush_prev_set (dict : SqlDict) (set : DictOpSettings)
    (now : Int) (ctx : TransCtx) :
    (sql_dict_prev_set_flush dict set now ctx).prev_set = [] := by
  rcases h : ctx.prev_set with _ | ⟨hd, tl⟩
  · simp [sql_dict_prev_set_flush, h]
  · simp only [sql_dict_prev_set_flush, h]
    split <;> try simp
    split <;> try simp
    split <;> simp

theorem prev_set_flush_prev_inc (dict : SqlDict) (set : DictOpSettings)
    (now : Int) (ctx : TransCtx) :
    (sql_dict_prev_set_flush dict set now ctx).prev_inc = ctx.prev_inc := by
  rcases h : ctx.prev_set with _ | ⟨hd, tl⟩
  · simp [sql_dict_prev_set_flush, h]
  · simp only [sql_dict_prev_set_flush, h]
    split <;> try simp
    split <;> try simp
    split <;> simp

theorem prev_inc_flush_prev_inc (dict : SqlDict) (set : DictOpSettings)
    (now : Int) (ctx : TransCtx) :
    (sql_dict_prev_inc_flush dict set now ctx).prev_inc = [] := by
  rcases h : ctx.prev_inc with _ | ⟨hd, tl⟩
  · simp [sql_dict_prev_inc_flush, h]
  · simp only [sql_dict_prev_inc_flush, h]
    split <;> try simp
    split <;> try simp
    split <;> simp

theorem prev_inc_flush_prev_set (dict : SqlDict) (set : DictOpSettings)
    (now : Int) (ctx : TransCtx) :
    (sql_dict_prev_inc_flush dict set now ctx).prev_set = ctx.prev_set := by
  rcases h : ctx.prev_inc with _ | ⟨hd, tl⟩
  · simp [sql_dict_prev_inc_flush, h]
  · simp only [sql_dict_prev_inc_flush, h]
    split <;> try simp
    split <;> try simp
    split <;> simp

theorem setStage_prev_inc (dict : SqlDict) (set : DictOpSettings) (now : Int)
    (ctx : TransCtx) (key value : String) :
    (sqlDictSetStage dict set now ctx key value).prev_inc = ctx.prev_inc := by
  simp only [sqlDictSetStage]
  split
  · simp
  · split
    · simp
    · split
      · simp
      · simp [prev_set_flush_prev_inc]

theorem incStage_prev_set (dict : SqlDict) (set : DictOpSettings) (now : Int)
    (ctx : TransCtx) (key : String) (diff : Int) :
    (sqlDictIncStage dict set now ctx key diff).prev_set = ctx.prev_set := by
  simp only [sqlDictIncStage]
  split
  · simp
  · split
    · simp
    · split
      · simp
      · simp [prev_inc_flush_prev_set]

theorem unsetStage_prev_set (dict : SqlDict) (set : DictOpSettings)
    (ctx : TransCtx) (key : String) :
    (sqlDictUnsetStage dict set ctx key).prev_set = ctx.prev_set := by
  simp only [sqlDictUnsetStage]
  split
  · simp
  · split <;> simp

theorem unsetStage_prev_inc (dict : SqlDict) (set : DictOpSettings)
    (ctx : TransCtx) (key : String) :
    (sqlDictUnsetStage dict set ctx key).prev_inc = ctx.prev_inc := by
  simp only [sqlDictUnsetStage]
  split
  · simp
  · split <;> simp

/-- The C9 invariant: at most one staging buffer is non-empty. -/
def buffersInv (ctx : TransCtx) : Prop :=
  ctx.prev_set = [] ∨ ctx.prev_inc = []

theorem applyOp_buffersInv (dict : SqlDict) (set : DictOpSettings) (now : Int)
    (ctx : TransCtx) (op : DictOp) (hInv : buffersInv ctx) :
    buffersInv (applyOp dict set now ctx op) := by
  cases op with
  | setOp k v =>
    simp only [applyOp, sql_dict_set]
    split
    · exact hInv
    · right
      rw [setStage_prev_inc]
      split
      · exact prev_inc_flush_prev_inc dict set now ctx
      · rename_i hni
        simpa using hni
  | incOp k d =>
    simp only [applyOp, sql_dict_atomic_inc]
    split
    · exact hInv
    · left
      rw [incStage_prev_set]
      split
      · exact prev_set_flush_prev_set dict set now ctx
      · rename_i hns
        simpa using hns
  | unsetOp k =>
    simp only [applyOp, sql_dict_unset]
    split
    · exact hInv
    · right
      rw [unsetStage_prev_inc]
      split
      · split
        · rw [prev_set_flush_prev_inc]
          exact prev_inc_flush_prev_inc dict set now ctx
        · exact prev_inc_flush_prev_inc dict set now ctx
      · rename_i hni
        split
        · rw [prev_set_flush_prev_inc]
          simpa using hni
        · simpa using hni

/-- C9: after any completed sequence of `set`, `atomic_inc` and `unset` calls
on a fresh transaction, at most one of the staging buffers `prev_set` and
`prev_inc` is non-empty. -/
theorem C9_at_most_one_buffer (dict : SqlDict) (set : DictOpSettings)
    (now : Int) (ops : List DictOp) :
    (ops.foldl (applyOp dict set now) sql_dict_transaction_init).prev_set = [] ∨
    (ops.foldl (applyOp dict set now) sql_dict_transaction_init).prev_inc = [] := by
  have main : ∀ (l : List DictOp) (c : TransCtx), buffersInv c →
      buffersInv (l.foldl (applyOp dict set now) c) := by
    intro l
    induction l with
    | nil => intro c hc; exact hc
    | cons op rest ih =>
      intro c hc
      exact ih _ (applyOp_buffersInv dict set now c op hc)
  exact main ops sql_dict_transaction_init (Or.inl rfl)

theorem prev_inc_flush_of_error (dict : SqlDict) (set : DictOpSettings)
    (now : Int) (ctx : TransCtx) (e : String) (he : ctx.error = some e) :
    (sql_dict_prev_inc_flush dict set now ctx).error = some e ∧
    (sql_dict_prev_inc_flush dict set now ctx).stmts = ctx.stmts := by
  rcases h : ctx.prev_inc with _ | ⟨hd, tl⟩
  · simp [sql_dict_prev_inc_flush, h, he]
  · simp [sql_dict_prev_inc_flush, h, he]

theorem prev_set_flush_of_error (dict : SqlDict) (set : DictOpSettings)
    (now : Int) (ctx : TransCtx) (e : String) (he : ctx.error = some e) :
    (sql_dict_prev_set_flush dict set now ctx).error = some e ∧
    (sql_dict_prev_set_flush dict set now ctx).stmts = ctx.stmts := by
  rcases h : ctx.prev_set with _ | ⟨hd, tl⟩
  · simp [sql_dict_prev_set_flush, h, he]
  · simp [sql_dict_prev_set_flush, h, he]

theorem commitFlush_of_error (dict : SqlDict) (set : DictOpSettings)
    (now : Int) (ctx : TransCtx) (e : String) (he : ctx.error = some e) :
    (sqlDictCommitFlush dict set now ctx).error = some e ∧
    (sqlDictCommitFlush dict set now ctx).stmts = ctx.stmts := by
  rw [sqlDictCommitFlush]
  simp only []
  split
  · split
    · refine ⟨?_, ?_⟩
      · exact ((prev_set_flush_of_error dict set now _ e
          (prev_inc_flush_of_error dict set now ctx e he).1).1)
      · rw [(prev_set_flush_of_error dict set now _ e
          (prev_inc_flush_of_error dict set now ctx e he).1).2,
          (prev_inc_flush_of_error dict set now ctx e he).2]
    · exact prev_inc_flush_of_error dict set now ctx e he
  · split
    · exact prev_set_flush_of_error dict set now ctx e he
    · exact ⟨he, rfl⟩

/-- C5: once an error message is latched in a transaction context, every
subsequent `set`, `atomic_inc` and `unset` on that transaction is a no-op
returning the context unchanged (staging buffers and emitted statements
included), and a synchronous commit rolls the SQL transaction back and
reports `FAILED` carrying the latched message, emitting no further
statements. -/
theorem C5_error_latch (dict : SqlDict) (set : DictOpSettings) (now : Int)
    (ctx : TransCtx) (e key value : String) (diff : Int)
    (he : ctx.error = some e) :
    sql_dict_set dict set now ctx key value = ctx ∧
    sql_dict_atomic_inc dict set now ctx key diff = ctx ∧
    sql_dict_unset dict set now ctx key = ctx ∧
    ∀ (backendError : Option String) (affected : Stmt → Nat),
      (sql_dict_transaction_commit dict set now ctx backendError affected).ret = .failed ∧
      (sql_dict_transaction_commit dict set now ctx backendError affected).errorMsg = some e ∧
      (sql_dict_transaction_commit dict set now ctx backendError affected).rolledBack = true ∧
      (sql_dict_transaction_commit dict set now ctx backendError affected).committed = false ∧
      (sql_dict_transaction_commit dict set now ctx backendError affected).ctxAfter.stmts =
        ctx.stmts := by
  refine ⟨by simp [sql_dict_set, he], by simp [sql_dict_atomic_inc, he],
          by simp [sql_dict_unset, he], ?_⟩
  intro backendError affected
  obtain ⟨hfe, hfs⟩ := commitFlush_of_error dict set now ctx e he
  rw [sql_dict_transaction_commit.eq_def, hfe]
  exact ⟨rfl, rfl, rfl, rfl, hfs⟩

/-- A context with a latched error, two staged entries and one emitted
statement, used as the C5 witness input. -/
def ctxErr : TransCtx :=
  { stmts := [{ query := "Q0", params := [], getRows := false,
                timestamp := 0, hideLog := false }],
    prev_inc := [],
    prev_set := [{ map := mapQuota, key := "shared/quota/alice", value := "1" }],
    error := some "sql dict set: Invalid/unmapped key: shared/nope",
    changed := true, timestamp := 0 }

/-- An empty dictionary handle for witnesses that do not consult the maps. -/
def dictEmpty : SqlDict :=
  { maps := [], flagOnDuplicateKey := false, flagOnConflictDo := false,
    tablePre := "" }

/-- Default operation settings for witnesses. -/
def setDefault : DictOpSettings :=
  { username := "bob", expire_secs := 0, hide_log_values := false }

/-- C5 witness: the latch theorem applied to a concrete errored context. -/
theorem C5_witness :
    ctxErr.error = some "sql dict set: Invalid/unmapped key: shared/nope" ∧
    sql_dict_set dictEmpty setDefault 0 ctxErr "shared/quota/bob" "2" = ctxErr ∧
    (sql_dict_transaction_commit dictEmpty setDefault 0 ctxErr none
        (fun _ => 1)).ret = .failed ∧
    (sql_dict_transaction_commit dictEmpty setDefault 0 ctxErr none
        (fun _ => 1)).errorMsg = some "sql dict set: Invalid/unmapped key: shared/nope" ∧
    (sql_dict_transaction_commit dictEmpty setDefault 0 ctxErr none
        (fun _ => 1)).rolledBack = true :=
  ⟨rfl,
   (C5_error_latch dictEmpty setDefault 0 ctxErr
      "sql dict set: Invalid/unmapped key: shared/nope" "shared/quota/bob" "2" 0 rfl).1,
   ((C5_error_latch dictEmpty setDefault 0 ctxErr
      "sql dict set: Invalid/unmapped key: shared/nope" "shared/quota/bob" "2" 0 rfl).2.2.2
      none (fun _ => 1)).1,
   ((C5_error_latch dictEmpty setDefault 0 ctxErr
      "sql dict set: Invalid/unmapped key: shared/nope" "shared/quota/bob" "2" 0 rfl).2.2.2
      none (fun _ => 1)).2.1,
   ((C5_error_latch dictEmpty setDefault 0 ctxErr
      "sql dict set: Invalid/unmapped key: shared/nope" "shared/quota/bob" "2" 0 rfl).2.2.2
      none (fun _ => 1)).2.2.1⟩

theorem prev_set_flush_changed (dict : SqlDict) (set : DictOpSettings)
    (now : Int) (ctx : TransCtx) :
    (sql_dict_prev_set_flush dict set now ctx).changed = ctx.changed := by
  rcases h : ctx.prev_set with _ | ⟨hd, tl⟩
  · simp [sql_dict_prev_set_flush, h]
  · simp only [sql_dict_prev_set_flush, h]
    split <;> try simp
    split <;> try simp
    split <;> simp

theorem prev_inc_flush_changed (dict : SqlDict) (set : DictOpSettings)
    (now : Int) (ctx : TransCtx) :
    (sql_dict_prev_inc_flush dict set now ctx).changed = ctx.changed := by
  rcases h : ctx.prev_inc with _ | ⟨hd, tl⟩
  · simp [sql_dict_prev_inc_flush, h]
  · simp only [sql_dict_prev_inc_flush, h]
    split <;> try simp
    split <;> try simp
    split <;> simp

theorem commitFlush_changed (dict : SqlDict) (set : DictOpSettings)
    (now : Int) (ctx : TransCtx) :
    (sqlDictCommitFlush dict set now ctx).changed = ctx.changed := by
  rw [sqlDictCommitFlush]
  simp only []
  split
  · split
    · rw [prev_set_flush_changed, prev_inc_flush_changed]
    · rw [prev_inc_flush_changed]
  · split
    · rw [prev_set_flush_changed]
    · rfl

/-- C4: for a synchronous commit with no error latched after the entry
flushes and at least one change: if the backend commit succeeds the result is
`NOTFOUND` exactly when some flushed row-counted (atomic-increment) UPDATE
statement recorded an affected-row count of `0` in its inc-row slot, and `OK`
when every slot is non-zero; if the backend commit fails the result is
`FAILED`. -/
theorem C4_commit_result (dict : SqlDict) (set : DictOpSettings) (now : Int)
    (ctx : TransCtx) (affected : Stmt → Nat)
    (hne : (sqlDictCommitFlush dict set now ctx).error = none)
    (hch : ctx.changed = true) :
    ((sql_dict_transaction_commit dict set now ctx none affected).ret =
       (if sql_dict_transaction_has_nonexistent
            (sqlDictCommitFlush dict set now ctx) affected
        then CommitRet.notfound else CommitRet.ok) ∧
     ((sql_dict_transaction_commit dict set now ctx none affected).ret =
         CommitRet.notfound ↔
       ∃ s ∈ (sqlDictCommitFlush dict set now ctx).stmts,
         s.getRows = true ∧ affected s = 0) ∧
     (sql_dict_transaction_commit dict set now ctx none affected).committed = true) ∧
    (∀ e, (sql_dict_transaction_commit dict set now ctx (some e) affected).ret =
        CommitRet.failed ∧
      (sql_dict_transaction_commit dict set now ctx (some e) affected).committed =
        false) := by
  have hchf : ¬ (sqlDictCommitFlush dict set now ctx).changed = false := by
    rw [commitFlush_changed, hch]
    simp
  constructor
  · rw [sql_dict_transaction_commit.eq_def, hne]
    simp only []
    rw [if_neg hchf]
    refine ⟨rfl, ?_, rfl⟩
    simp only []
    constructor
    · intro hr
      by_cases hnz : sql_dict_transaction_has_nonexistent
          (sqlDictCommitFlush dict set now ctx) affected = true
      · rw [sql_dict_transaction_has_nonexistent] at hnz
        simp only [List.any_eq_true, List.mem_filter, decide_eq_true_eq] at hnz
        obtain ⟨s, ⟨hs1, hs2⟩, hs3⟩ := hnz
        exact ⟨s, hs1, hs2, hs3⟩
      · rw [if_neg hnz] at hr
        exact absurd hr (by simp)
    · intro ⟨s, hs1, hs2, hs3⟩
      have hnz : sql_dict_transaction_has_nonexistent
          (sqlDictCommitFlush dict set now ctx) affected = true := by
        rw [sql_dict_transaction_has_nonexistent]
        simp only [List.any_eq_true, List.mem_filter, decide_eq_true_eq]
        exact ⟨s, ⟨hs1, hs2⟩, hs3⟩
      rw [if_pos hnz]
  · intro e
    rw [sql_dict_transaction_commit.eq_def, hne]
    simp only []
    rw [if_neg hchf]
    exact ⟨rfl, rfl⟩

/-- A changed context whose only statement is a flushed row-counted UPDATE,
used as the C4 witness input. -/
def ctxInc : TransCtx :=
  { stmts := [{ query := "UPDATE q SET bytes=bytes+? WHERE f1 = ?",
                params := [], getRows := true, timestamp := 0, hideLog := false }],
    prev_inc := [], prev_set := [], error := none, changed := true,
    timestamp := 0 }

/-- C4 witness: the commit theorem applied to a concrete context whose single
inc-row slot reports zero affected rows (result `NOTFOUND`), and to a backend
commit error (result `FAILED`). -/
theorem C4_witness :
    (sqlDictCommitFlush dictEmpty setDefault 0 ctxInc).error = none ∧
    ctxInc.changed = true ∧
    (sql_dict_transaction_commit dictEmpty setDefault 0 ctxInc none
        (fun _ => 0)).ret =
      (if sql_dict_transaction_has_nonexistent
          (sqlDictCommitFlush dictEmpty setDefault 0 ctxInc) (fun _ => 0)
       then CommitRet.notfound else CommitRet.ok) ∧
    (∀ e, (sql_dict_transaction_commit dictEmpty setDefault 0 ctxInc (some e)
        (fun _ => 0)).ret = CommitRet.failed ∧
      (sql_dict_transaction_commit dictEmpty setDefault 0 ctxInc (some e)
        (fun _ => 0)).committed = false) :=
  ⟨rfl, rfl,
   ((C4_commit_result dictEmpty setDefault 0 ctxInc (fun _ => 0) rfl rfl).1).1,
   fun e => (C4_commit_result dictEmpty setDefault 0 ctxInc (fun _ => 0) rfl rfl).2 e⟩

/-- Whether the expiry-skipping iterator discards a row: its expiry column
(column 0) is non-NULL, parses as a timestamp, and is not in the future. -/
def expireSkips (now : Int) (r : List (Option String)) : Bool :=
  match r.getD 0 none with
  | none => false
  | some ev =>
    match strToTime ev with
    | none => false
    | some t => decide (¬ t > now)

/-- C10: on a map with an `expire_field`, the row iterator returns the first
fetched row that is not skipped, where a row is skipped exactly when its
expiry column parses as a timestamp that is less than or equal to the current
ioloop time; a NULL or unparseable expiry column is never skipped. -/
theorem C10_expiry_skip (map : DictSqlMap) (f : String) (now : Int)
    (rows : List (List (Option String))) (err : Option String)
    (hf : map.expire_field = some f) :
    (sql_dict_result_next_row map now { rows := rows, err := err } =
      (match rows.dropWhile (expireSkips now) with
       | [] =>
         match err with
         | some e => NextRowRet.fail e
         | none => NextRowRet.eof
       | r :: rest => NextRowRet.row r { rows := rest, err := err })) ∧
    (∀ r, r.getD 0 none = none → expireSkips now r = false) ∧
    (∀ r ev, r.getD 0 none = some ev → strToTime ev = none →
      expireSkips now r = false) ∧
    (∀ r ev t, r.getD 0 none = some ev → strToTime ev = some t →
      (expireSkips now r = true ↔ t ≤ now)) := by
  refine ⟨?_, ?_, ?_, ?_⟩
  · rw [sql_dict_result_next_row]
    simp only []
    induction rows with
    | nil => simp only [nextRowLoop, List.dropWhile_nil]
    | cons r rest ih =>
      rw [List.dropWhile_cons]
      simp only [nextRowLoop]
      rw [if_pos (by simp [hf] : map.expire_field ≠ none)]
      cases hc : r.getD 0 none with
      | none =>
        rw [show expireSkips now r = false from by simp only [expireSkips, hc]]
        simp only [Bool.false_eq_true, if_false, hc]
      | some ev =>
        cases ht : strToTime ev with
        | none =>
          rw [show expireSkips now r = false from by simp only [expireSkips, hc, ht]]
          simp only [Bool.false_eq_true, if_false, hc, ht]
        | some t =>
          rw [show expireSkips now r = decide (¬ t > now) from by
            simp only [expireSkips, hc, ht]]
          simp only [hc, ht]
          by_cases hgt : t > now
          · rw [if_pos hgt,
              if_neg (by simp [hgt] : ¬ (decide (¬ t > now) = true))]
          · rw [if_neg hgt, if_pos (by simp [hgt] : decide (¬ t > now) = true)]
            exact ih
  · intro r hc
    simp only [expireSkips, hc]
  · intro r ev hc ht
    simp only [expireSkips, hc, ht]
  · intro r ev t hc ht
    simp only [expireSkips, hc, ht]
    simp only [decide_eq_true_eq]
    omega

/-- Map with an expire field, for the C10 witness. -/
def mapExp : DictSqlMap :=
  { pattern := "shared/quota/$", table := "q", username_field := "u",
    value_field := "bytes", value_types := [.string], values_count := 1,
    expire_field := some "exp",
    pattern_fields := [{ name := "f1", value_type := .string }] }

/-- C10 witness: the iterator theorem applied at a concrete result where the
first row is expired (`5 <= 10`) and the second row has a NULL expiry column
(never skipped, returned as the surviving row). -/
theorem C10_witness :
    mapExp.expire_field = some "exp" ∧
    (sql_dict_result_next_row mapExp 10
        { rows := [[some "5", some "v1"], [none, some "v2"]], err := none } =
      (match [[some "5", some "v1"], [none, some "v2"]].dropWhile (expireSkips 10) with
       | [] =>
         match (none : Option String) with
         | some e => NextRowRet.fail e
         | none => NextRowRet.eof
       | r :: rest => NextRowRet.row r { rows := rest, err := none })) ∧
    sql_dict_result_next_row mapExp 10
        { rows := [[some "5", some "v1"], [none, some "v2"]], err := none } =
      NextRowRet.row [none, some "v2"] { rows := [], err := none } :=
  ⟨rfl,
   (C10_expiry_skip mapExp "exp" 10 [[some "5", some "v1"], [none, some "v2"]]
      none rfl).1,
   by decide⟩

theorem filterMap_if_eq_filter_map {α β : Type} (p : α → Prop) [DecidablePred p]
    (f : α → β) (l : List α) :
    l.filterMap (fun m => if p m then some (f m) else none) =
      (l.filter (fun m => decide (p m))).map f := by
  induction l with
  | nil => rfl
  | cons a rest ih =>
    rw [List.filterMap_cons, List.filter_cons]
    by_cases hp : p a <;> simp [hp, ih]

/-- Dictionary handle with a table prefix and the expiring map, for the C8
counterexample and witness. -/
def dictPre : SqlDict :=
  { maps := [mapExp], flagOnDuplicateKey := false, flagOnConflictDo := false,
    tablePre := "pre_" }

/-- C8 counterexample: the reaper's DELETE parameter is built with the INT
type tag (`DICT_SQL_TYPE_INT`, dict-sql.c line 1611), not UINT as the claim
states; here with `ioloop_timeval = (5 s, 7 µs)` the single parameter is the
INT-typed value `5000007`. -/
theorem C8_counterexample :
    sql_dict_expire_map dictPre mapExp 5 7 =
      [{ query := "DELETE FROM pre_q WHERE exp <= ?",
         params := [{ value_type := .int, value_int64 := 5000007 }],
         getRows := false, timestamp := 0, hideLog := false }] ∧
    DictSqlType.int ≠ DictSqlType.uint :=
  ⟨rfl, by decide⟩

/-- C8 (amended): `expire_scan` opens one fresh one-statement transaction per
configured map with an `expire_field`, in map order, issuing
`DELETE FROM <prefix><table> WHERE <expire_field> <= ?` whose single
parameter is of INT type and equals wall-clock seconds times 1,000,000 plus
the microsecond remainder; it reports `1` when at least one expiring map
exists and `0` otherwise. -/
theorem C8_expire_scan (dict : SqlDict) (tvSec tvUsec : Int) :
    ((sql_dict_expire_scan dict tvSec tvUsec).1 =
      (dict.maps.filter (fun m => m.expire_field ≠ none)).map
        (fun m => sql_dict_expire_map dict m tvSec tvUsec)) ∧
    (∀ m f, m.expire_field = some f →
      sql_dict_expire_map dict m tvSec tvUsec =
        [{ query := "DELETE FROM " ++ dict.tablePre ++ m.table ++ " WHERE " ++
             f ++ " <= ?",
           params := [{ value_type := .int,
                        value_int64 := tvSec * 1000000 + tvUsec }],
           getRows := false, timestamp := 0, hideLog := false }]) ∧
    ((sql_dict_expire_scan dict tvSec tvUsec).2 =
      if dict.maps.any (fun m => m.expire_field ≠ none) then 1 else 0) := by
  refine ⟨?_, ?_, rfl⟩
  · rw [sql_dict_expire_scan]
    simp only []
    exact filterMap_if_eq_filter_map (fun m => m.expire_field ≠ none)
      (fun m => sql_dict_expire_map dict m tvSec tvUsec) dict.maps
  · intro m f hf
    rw [sql_dict_expire_map, hf]
    rfl

/-- C8 witness: the amended theorem applied at the concrete expiring map,
with `ioloop_timeval = (5 s, 7 µs)`. -/
theorem C8_witness :
    mapExp.expire_field = some "exp" ∧
    sql_dict_expire_map dictPre mapExp 5 7 =
      [{ query := "DELETE FROM " ++ dictPre.tablePre ++ mapExp.table ++
           " WHERE " ++ "exp" ++ " <= ?",
         params := [{ value_type := .int, value_int64 := 5 * 1000000 + 7 }],
         getRows := false, timestamp := 0, hideLog := false }] :=
  ⟨rfl, (C8_expire_scan dictPre 5 7).2.1 mapExp "exp" rfl⟩

/-- C6 (code evaluated at the failing input): for a surviving row whose
primary (first) value column is SQL NULL, the async lookup callback is
invoked with `ret = 1` and the NULL decoded to the empty string —
`sql_dict_result_unescape` maps NULL to `""`, so `result.value` is never the
C `NULL` for a map with at least one value column and the
`result.value == NULL ⇒ ret = 0` coercion (and the code's own comment
"we'll treat this as not found") is dead.  The synchronous path likewise
returns `ret = 1` with the NULL decoded as the empty string, as the claim
states. -/
theorem C6_null_primary_value :
    sql_dict_lookup_async_callback mapQuota 0 { rows := [[none]], err := none } =
      { ret := 1, values := [""], value := some "", error := none } ∧
    sql_dict_lookup_from_result mapQuota 0 { rows := [[none]], err := none } =
      (1, [""], none) ∧
    (1 : Int) ≠ 0 :=
  ⟨rfl, rfl, by decide⟩

/-- `s` is an INSERT statement text: it starts with `INSERT INTO `. -/
def insPre (s : String) : Prop :=
  s.toList.take 12 = ("INSERT INTO ").toList

theorem toList_append (s t : String) : (s ++ t).toList = s.toList ++ t.toList :=
  rfl

theorem insPre_append_right {s : String} (t : String) (h : insPre s) :
    insPre (s ++ t) := by
  rw [insPre] at h ⊢
  rw [toList_append]
  have hlen : 12 ≤ s.toList.length := by
    have h2 := congrArg List.length h
    rw [List.length_take] at h2
    have h12 : ("INSERT INTO ").toList.length = 12 := rfl
    rw [h12] at h2
    omega
  rw [List.take_append_of_le_length hlen]
  exact h

theorem insPre_insert (t : String) : insPre ("INSERT INTO " ++ t) := by
  have : insPre "INSERT INTO " := by rw [insPre]; rfl
  exact insPre_append_right t this

theorem insPre_ite (c : Prop) [Decidable c] (a b : String) (ha : insPre a)
    (hb : insPre b) : insPre (if c then a else b) := by
  split <;> assumption

theorem setQueryFieldsLoop_insPre (l : List (DictSqlMap × String)) :
    ∀ (i : Nat) (pre suf : String) (ps : List SqlDictParam)
      (pre' suf' : String) (ps' : List SqlDictParam),
      setQueryFieldsLoop l i pre suf ps = .ok (pre', suf', ps') →
      insPre pre → insPre pre' := by
  induction l with
  | nil =>
    intro i pre suf ps pre' suf' ps' h hp
    simp only [setQueryFieldsLoop, Except.ok.injEq, Prod.mk.injEq] at h
    rw [← h.1]
    exact hp
  | cons mv rest ih =>
    intro i pre suf ps pre' suf' ps' h hp
    obtain ⟨m, v⟩ := mv
    simp only [setQueryFieldsLoop] at h
    split at h
    · exact absurd h (by simp)
    · refine ih (i + 1) _ _ _ pre' suf' ps' h ?_
      split
      · exact insPre_append_right _ (insPre_append_right _ hp)
      · exact insPre_append_right _ hp

theorem setQueryPatternLoop_insPre (map0 : DictSqlMap)
    (l : List (DictSqlField × String)) :
    ∀ (pre suf : String) (ps : List SqlDictParam)
      (pre' suf' : String) (ps' : List SqlDictParam),
      setQueryPatternLoop map0 l pre suf ps = .ok (pre', suf', ps') →
      insPre pre → insPre pre' := by
  induction l with
  | nil =>
    intro pre suf ps pre' suf' ps' h hp
    simp only [setQueryPatternLoop, Except.ok.injEq, Prod.mk.injEq] at h
    rw [← h.1]
    exact hp
  | cons fv rest ih =>
    intro pre suf ps pre' suf' ps' h hp
    obtain ⟨f, v⟩ := fv
    simp only [setQueryPatternLoop] at h
    split at h
    · exact absurd h (by simp)
    · exact ih _ _ _ pre' suf' ps' h
        (insPre_append_right _ (insPre_append_right _ hp))

theorem setQueryUpdateLoop_insPre (l : List (DictSqlMap × String)) :
    ∀ (i : Nat) (pre : String) (ps : List SqlDictParam)
      (pre' : String) (ps' : List SqlDictParam),
      setQueryUpdateLoop l i pre ps = .ok (pre', ps') →
      insPre pre → insPre pre' := by
  induction l with
  | nil =>
    intro i pre ps pre' ps' h hp
    simp only [setQueryUpdateLoop, Except.ok.injEq, Prod.mk.injEq] at h
    rw [← h.1]
    exact hp
  | cons mv rest ih =>
    intro i pre ps pre' ps' h hp
    obtain ⟨m, v⟩ := mv
    simp only [setQueryUpdateLoop] at h
    split at h
    · exact absurd h (by simp)
    · refine ih (i + 1) _ _ pre' ps' h ?_
      split
      · exact insPre_append_right _ (insPre_append_right _
          (insPre_append_right _ hp))
      · exact insPre_append_right _ (insPre_append_right _ hp)

/-- Every statement `sql_dict_set_query` builds is an INSERT statement. -/
theorem set_query_insPre (dict : SqlDict) (set : DictOpSettings) (now : Int)
    (ctxTimestamp : Int) (buildFields : List (DictSqlMap × String))
    (pattern_values : List String) (add_username : Bool) (st : Stmt)
    (h : sql_dict_set_query dict set now ctxTimestamp buildFields
        pattern_values add_username = .ok st) :
    insPre st.query := by
  rcases buildFields with _ | ⟨⟨m0, v0⟩, tl⟩
  · exact absurd h (by simp [sql_dict_set_query])
  · simp only [sql_dict_set_query] at h
    split at h
    · exact absurd h (by simp)
    · rcases hfl : setQueryFieldsLoop ((m0, v0) :: tl) 0
          ("INSERT INTO " ++ dict.tablePre ++ m0.table ++ " (") (") VALUES (") []
          with e | ⟨pre1, suf1, ps1⟩
      · rw [hfl] at h
        exact absurd h (by simp)
      · rw [hfl] at h
        simp only [] at h
        have hp1 : insPre pre1 :=
          setQueryFieldsLoop_insPre _ 0 _ _ _ pre1 suf1 ps1 hfl
            (by
              have : "INSERT INTO " ++ dict.tablePre ++ m0.table ++ " (" =
                  "INSERT INTO " ++ (dict.tablePre ++ m0.table ++ " (") := by
                simp [String.append_assoc]
              rw [this]
              exact insPre_insert _)
        rcases hpl : setQueryPatternLoop m0 (m0.pattern_fields.zip pattern_values)
            (if (if m0.expire_field ≠ none ∧ set.expire_secs > 0
                 then now + set.expire_secs else 0) ≠ 0 then
               (if add_username then pre1 ++ "," ++ m0.username_field else pre1) ++
                 "," ++ m0.expire_field.getD ""
             else
               (if add_username then pre1 ++ "," ++ m0.username_field else pre1))
            (if (if m0.expire_field ≠ none ∧ set.expire_secs > 0
                 then now + set.expire_secs else 0) ≠ 0 then
               (if add_username then suf1 ++ ",?" else suf1) ++ ",?"
             else
               (if add_username then suf1 ++ ",?" else suf1))
            ((if add_username then
                ps1 ++ [{ value_type := .string, value_str := set.username }]
              else ps1) ++
             (if (if m0.expire_field ≠ none ∧ set.expire_secs > 0
                  then now + set.expire_secs else 0) ≠ 0 then
                [{ value_type := .uint,
                   value_int64 := if m0.expire_field ≠ none ∧ set.expire_secs > 0
                                  then now + set.expire_secs else 0 }]
              else [])) with e | ⟨pre2, suf2, ps2⟩
        · rw [hpl] at h
          exact absurd h (by simp)
        · rw [hpl] at h
          simp only [] at h
          have hp2 : insPre pre2 := by
            refine setQueryPatternLoop_insPre m0 _ _ _ _ pre2 suf2 ps2 hpl ?_
            refine insPre_ite _ _ _ ?_ ?_
            · exact insPre_append_right _ (insPre_append_right _
                (insPre_ite _ _ _
                  (insPre_append_right _ (insPre_append_right _ hp1)) hp1))
            · exact insPre_ite _ _ _
                (insPre_append_right _ (insPre_append_right _ hp1)) hp1
          split at h
          · rcases hul : setQueryUpdateLoop ((m0, v0) :: tl) 0
                (pre2 ++ suf2 ++ ")" ++ " ON DUPLICATE KEY UPDATE ") ps2
                with e | ⟨pre3, ps3⟩
            · rw [hul] at h
              exact absurd h (by simp)
            · rw [hul] at h
              simp only [Except.ok.injEq] at h
              have hp3 : insPre pre3 :=
                setQueryUpdateLoop_insPre _ 0 _ _ pre3 ps3 hul
                  (insPre_append_right _ (insPre_append_right _
                    (insPre_append_right _ hp2)))
              rw [← h]
              exact insPre_ite _ _ _
                (insPre_append_right _ (insPre_append_right _
                  (insPre_append_right _ hp3))) hp3
          · split at h
            · rcases hul : setQueryUpdateLoop ((m0, v0) :: tl) 0
                  (pre2 ++ suf2 ++ ")" ++ " ON CONFLICT (" ++
                   onConflictCols m0 add_username ++ ") DO UPDATE SET ") ps2
                  with e | ⟨pre3, ps3⟩
              · rw [hul] at h
                exact absurd h (by simp)
              · rw [hul] at h
                simp only [Except.ok.injEq] at h
                have hp3 : insPre pre3 :=
                  setQueryUpdateLoop_insPre _ 0 _ _ pre3 ps3 hul
                    (insPre_append_right _ (insPre_append_right _
                      (insPre_append_right _ (insPre_append_right _
                        (insPre_append_right _ hp2)))))
                rw [← h]
                exact insPre_ite _ _ _
                  (insPre_append_right _ (insPre_append_right _
                    (insPre_append_right _ hp3))) hp3
            · simp only [Except.ok.injEq] at h
              rw [← h]
              exact insPre_append_right _ (insPre_append_right _ hp2)

/-- Whether an `Except` computation succeeded. -/
def exOk {ε α : Type} : Except ε α → Bool
  | .ok _ => true
  | .error _ => false

theorem exOk_exists {ε α : Type} (x : Except ε α) (h : exOk x = true) :
    ∃ a, x = .ok a := by
  cases x with
  | error e => simp [exOk] at h
  | ok a => exact ⟨a, rfl⟩

theorem commitFlushSetOnly (dict : SqlDict) (set : DictOpSettings) (now : Int)
    (c : TransCtx) (hin : c.prev_inc = []) (hsn : c.prev_set ≠ []) :
    sqlDictCommitFlush dict set now c = sql_dict_prev_set_flush dict set now c := by
  rw [sqlDictCommitFlush]
  simp only []
  rw [if_neg (show ¬(c.prev_inc ≠ []) from by simp [hin])]
  rw [if_pos hsn]

/-- C3: in a transaction with empty staging buffers and no latched error, two
consecutive `set` calls whose keys resolve to mergeable maps are staged
together with no statement emitted; a third `set` whose key is not mergeable
with the staged batch first flushes the two staged sets as exactly one INSERT
statement and restarts the buffer with the third entry; the commit-entry
flushes then emit the third set as a second INSERT, so exactly two INSERT
statements reach the backend, in call order. -/
theorem C3_merge_and_split
    (dict : SqlDict) (set : DictOpSettings) (now : Int) (ctx0 : TransCtx)
    (k1 v1 k2 v2 k3 v3 : String)
    (m1 m2 m3 : DictSqlMap) (pv1 pv2 pv3 : List String)
    (he0 : ctx0.error = none) (hps0 : ctx0.prev_set = [])
    (hpi0 : ctx0.prev_inc = [])
    (h1 : sql_dict_find_map dict k1 = some (m1, pv1))
    (h2 : sql_dict_find_map dict k2 = some (m2, pv2))
    (h3 : sql_dict_find_map dict k3 = some (m3, pv3))
    (hm12 : sql_dict_maps_are_mergeable dict m1 k1 m2 k2 pv2 = true)
    (hm13 : sql_dict_maps_are_mergeable dict m1 k1 m3 k3 pv3 = false)
    (hq1 : exOk (sql_dict_set_query dict set now ctx0.timestamp
        [(m1, v1), (m2, v2)] pv1
        (keyChar0 k1 = keyChar0 DICT_PATH_PRIVATE)) = true)
    (hq2 : exOk (sql_dict_set_query dict set now ctx0.timestamp
        [(m3, v3)] pv3
        (keyChar0 k3 = keyChar0 DICT_PATH_PRIVATE)) = true) :
    ∃ st1 st2 : Stmt,
      sql_dict_set_query dict set now ctx0.timestamp [(m1, v1), (m2, v2)] pv1
          (keyChar0 k1 = keyChar0 DICT_PATH_PRIVATE) = .ok st1 ∧
      sql_dict_set_query dict set now ctx0.timestamp [(m3, v3)] pv3
          (keyChar0 k3 = keyChar0 DICT_PATH_PRIVATE) = .ok st2 ∧
      sql_dict_set dict set now (sql_dict_set dict set now ctx0 k1 v1) k2 v2 =
        { ctx0 with prev_set := [⟨m1, k1, v1⟩, ⟨m2, k2, v2⟩] } ∧
      sql_dict_set dict set now (sql_dict_set dict set now
          (sql_dict_set dict set now ctx0 k1 v1) k2 v2) k3 v3 =
        { ctx0 with prev_set := [⟨m3, k3, v3⟩],
                    stmts := ctx0.stmts ++ [st1] } ∧
      (sqlDictCommitFlush dict set now (sql_dict_set dict set now
          (sql_dict_set dict set now (sql_dict_set dict set now ctx0 k1 v1)
            k2 v2) k3 v3)).stmts = ctx0.stmts ++ [st1, st2] ∧
      insPre st1.query ∧ insPre st2.query := by
  obtain ⟨st1, hst1⟩ := exOk_exists _ hq1
  obtain ⟨st2, hst2⟩ := exOk_exists _ hq2
  have hc1 : sql_dict_set dict set now ctx0 k1 v1 =
      { ctx0 with prev_set := [⟨m1, k1, v1⟩] } := by
    rw [sql_dict_set, if_neg (by simp [he0]), if_neg (by simp [hpi0])]
    simp only [sqlDictSetStage, h1, hps0]
  have hc2 : sql_dict_set dict set now { ctx0 with prev_set := [⟨m1, k1, v1⟩] }
      k2 v2 = { ctx0 with prev_set := [⟨m1, k1, v1⟩, ⟨m2, k2, v2⟩] } := by
    rw [sql_dict_set, if_neg (by simp [he0]), if_neg (by simp [hpi0])]
    simp only [sqlDictSetStage, h2, hm12, if_true]
    simp
  have hflush : sql_dict_prev_set_flush dict set now
      { ctx0 with prev_set := [⟨m1, k1, v1⟩, ⟨m2, k2, v2⟩] } =
      { ctx0 with prev_set := [], stmts := ctx0.stmts ++ [st1] } := by
    simp only [sql_dict_prev_set_flush, he0, h1, hst1, List.map_cons,
      List.map_nil]
    simp [he0]
  have hc3 : sql_dict_set dict set now
      { ctx0 with prev_set := [⟨m1, k1, v1⟩, ⟨m2, k2, v2⟩] } k3 v3 =
      { ctx0 with prev_set := [⟨m3, k3, v3⟩],
                  stmts := ctx0.stmts ++ [st1] } := by
    rw [sql_dict_set, if_neg (by simp [he0]), if_neg (by simp [hpi0])]
    simp only [sqlDictSetStage, h3, hm13, Bool.false_eq_true, if_false, hflush]
  have hcf : (sqlDictCommitFlush dict set now
      { ctx0 with prev_set := [⟨m3, k3, v3⟩],
                  stmts := ctx0.stmts ++ [st1] }).stmts =
      ctx0.stmts ++ [st1, st2] := by
    rw [commitFlushSetOnly dict set now _ (by simp [hpi0]) (by simp)]
    simp only [sql_dict_prev_set_flush, he0, h3, hst2, List.map_cons,
      List.map_nil]
    simp [he0]
  refine ⟨st1, st2, hst1, hst2, ?_, ?_, ?_,
    set_query_insPre dict set now ctx0.timestamp _ _ _ st1 hst1,
    set_query_insPre dict set now ctx0.timestamp _ _ _ st2 hst2⟩
  · rw [hc1, hc2]
  · rw [hc1, hc2, hc3]
  · rw [hc1, hc2, hc3, hcf]

/-- Dictionary handle over the quota map, for the C3 witness. -/
def dictQ : SqlDict :=
  { maps := [mapQuota], flagOnDuplicateKey := false, flagOnConflictDo := false,
    tablePre := "" }

/-- C3 witness: the staging theorem applied to two sets on
`shared/quota/alice` (mergeable) followed by one on `shared/quota/bob`
(different pattern values). -/
theorem C3_witness :
    sql_dict_find_map dictQ "shared/quota/alice" = some (mapQuota, ["alice"]) ∧
    sql_dict_find_map dictQ "shared/quota/bob" = some (mapQuota, ["bob"]) ∧
    sql_dict_maps_are_mergeable dictQ mapQuota "shared/quota/alice" mapQuota
      "shared/quota/alice" ["alice"] = true ∧
    sql_dict_maps_are_mergeable dictQ mapQuota "shared/quota/alice" mapQuota
      "shared/quota/bob" ["bob"] = false ∧
    (∃ st1 st2 : Stmt,
      sql_dict_set_query dictQ setDefault 0 sql_dict_transaction_init.timestamp
          [(mapQuota, "10"), (mapQuota, "20")] ["alice"]
          (keyChar0 "shared/quota/alice" = keyChar0 DICT_PATH_PRIVATE) = .ok st1 ∧
      sql_dict_set_query dictQ setDefault 0 sql_dict_transaction_init.timestamp
          [(mapQuota, "30")] ["bob"]
          (keyChar0 "shared/quota/bob" = keyChar0 DICT_PATH_PRIVATE) = .ok st2 ∧
      sql_dict_set dictQ setDefault 0 (sql_dict_set dictQ setDefault 0
          sql_dict_transaction_init "shared/quota/alice" "10")
          "shared/quota/alice" "20" =
        { sql_dict_transaction_init with
          prev_set := [⟨mapQuota, "shared/quota/alice", "10"⟩,
                       ⟨mapQuota, "shared/quota/alice", "20"⟩] } ∧
      sql_dict_set dictQ setDefault 0 (sql_dict_set dictQ setDefault 0
          (sql_dict_set dictQ setDefault 0 sql_dict_transaction_init
            "shared/quota/alice" "10") "shared/quota/alice" "20")
          "shared/quota/bob" "30" =
        { sql_dict_transaction_init with
          prev_set := [⟨mapQuota, "shared/quota/bob", "30"⟩],
          stmts := sql_dict_transaction_init.stmts ++ [st1] } ∧
      (sqlDictCommitFlush dictQ setDefault 0 (sql_dict_set dictQ setDefault 0
          (sql_dict_set dictQ setDefault 0 (sql_dict_set dictQ setDefault 0
            sql_dict_transaction_init "shared/quota/alice" "10")
            "shared/quota/alice" "20") "shared/quota/bob" "30")).stmts =
        sql_dict_transaction_init.stmts ++ [st1, st2] ∧
      insPre st1.query ∧ insPre st2.query) :=
  ⟨rfl, rfl, rfl, rfl,
   C3_merge_and_split dictQ setDefault 0 sql_dict_transaction_init
     "shared/quota/alice" "10" "shared/quota/alice" "20" "shared/quota/bob" "30"
     mapQuota mapQuota mapQuota ["alice"] ["alice"] ["bob"]
     rfl rfl rfl rfl rfl rfl rfl rfl rfl rfl⟩

end DictSql
